import Mathlib

/-!
Shallow embedding of cuda_rasterizer/backward.cu from the
diff-gaussian-rasterization submodule (backward pass of the 3D Gaussian
splatting rasterizer).  Machine floats are modelled as real numbers, CUDA
device buffers as total functions from flat indices to values, division is
real-field division (so x / 0 = 0), exp is Real.exp and sqrt is Real.sqrt.
Kernels are modelled per parallel unit (one primitive, or one bucket warp);
atomic additions are modelled as the values each unit adds.
-/

noncomputable section

/-- Device helper sq of backward.cu line 18 (the source name sq is already a
Mathlib theorem, hence the name sqr). -/
def sqr (x : ℝ) : ℝ := x * x

/-- Model of CUDA float2. -/
structure F2 where
  x : ℝ
  y : ℝ

attribute [ext] F2

/-- Model of CUDA float3. -/
structure F3 where
  x : ℝ
  y : ℝ
  z : ℝ

attribute [ext] F3

/-- Model of CUDA float4. -/
structure F4 where
  x : ℝ
  y : ℝ
  z : ℝ
  w : ℝ

attribute [ext] F4

/-- Model of glm::mat3 in column-major layout: M c r is the entry in
column c, row r, so that M c is the column glm writes M[c]. -/
abbrev Mat3 := Fin 3 → Fin 3 → ℝ

/-- Model of the glm::mat3 constructor: the nine arguments fill the three
columns in order, matching glm column-major initialization. -/
def mat3 (a b c d e f g h i : ℝ) : Mat3 := fun col row =>
  if col = 0 then (if row = 0 then a else if row = 1 then b else c)
  else if col = 1 then (if row = 0 then d else if row = 1 then e else f)
  else (if row = 0 then g else if row = 1 then h else i)

/-- Model of a glm::vec3 given by its three components. -/
def v3 (a b c : ℝ) : Fin 3 → ℝ := fun i =>
  if i = 0 then a else if i = 1 then b else c

/-- Model of the glm matrix product: (A * B)[c][r] = sum over k of
A[k][r] * B[c][k]. -/
def mulM (A B : Mat3) : Mat3 := fun c r => ∑ k : Fin 3, A k r * B c k

/-- Model of glm::transpose. -/
def trM (A : Mat3) : Mat3 := fun c r => A r c

/-- Modelled from the spec: helper transformPoint4x3 of auxiliary.h is not
under src/; the spec says computeCov2DCUDA recomputes the camera-space
position, which is the affine action of the column-major 4x4 view matrix on
the point. -/
def transformPoint4x3 (p : F3) (m : ℕ → ℝ) : F3 :=
  { x := m 0 * p.x + m 4 * p.y + m 8 * p.z + m 12
    y := m 1 * p.x + m 5 * p.y + m 9 * p.z + m 13
    z := m 2 * p.x + m 6 * p.y + m 10 * p.z + m 14 }

/-- Modelled from the spec: helper transformVec4x3Transpose of auxiliary.h is
not under src/; it applies the transposed linear part of the view matrix,
which is the backward of transformPoint4x3 through its linear part. -/
def transformVec4x3Transpose (p : F3) (m : ℕ → ℝ) : F3 :=
  { x := m 0 * p.x + m 1 * p.y + m 2 * p.z
    y := m 4 * p.x + m 5 * p.y + m 6 * p.z
    z := m 8 * p.x + m 9 * p.y + m 10 * p.z }

/-- Inputs of the computeCov2DCUDA kernel (backward.cu, lines 149 to 162):
device buffers become functions of their flat index, with the same index
arithmetic as the source. -/
structure Cov2DIn where
  P : ℕ
  means : ℕ → F3
  radii : ℕ → ℤ
  cov3Ds : ℕ → ℝ
  h_x : ℝ
  h_y : ℝ
  tan_fovx : ℝ
  tan_fovy : ℝ
  view_matrix : ℕ → ℝ
  opacities : ℕ → ℝ
  dL_dconics : ℕ → ℝ
  dL_dopacity : ℕ → ℝ
  dL_dinvdepth : ℕ → ℝ
  antialiasing : Bool

section Cov2D

variable (inp : Cov2DIn) (idx : ℕ)

/-- Camera-space position t before the frustum clamp (backward.cu line 175). -/
def cov2d_tcam : F3 := transformPoint4x3 (inp.means idx) inp.view_matrix

/-- Clamp limit limx = 1.3 * tan_fovx (line 177). -/
def cov2d_limx : ℝ := 1.3 * inp.tan_fovx

/-- Clamp limit limy = 1.3 * tan_fovy (line 178). -/
def cov2d_limy : ℝ := 1.3 * inp.tan_fovy

/-- Normalized ray slope t.x / t.z before clamping (line 179). -/
def cov2d_txtz : ℝ := (cov2d_tcam inp idx).x / (cov2d_tcam inp idx).z

/-- Normalized ray slope t.y / t.z before clamping (line 180). -/
def cov2d_tytz : ℝ := (cov2d_tcam inp idx).y / (cov2d_tcam inp idx).z

/-- Camera-space position after the frustum ray clamp (lines 181 to 182). -/
def cov2d_t : F3 :=
  { x := min (cov2d_limx inp) (max (-cov2d_limx inp) (cov2d_txtz inp idx)) * (cov2d_tcam inp idx).z
    y := min (cov2d_limy inp) (max (-cov2d_limy inp) (cov2d_tytz inp idx)) * (cov2d_tcam inp idx).z
    z := (cov2d_tcam inp idx).z }

/-- Mask zeroing the x axis gradient when the x ray slope was clamped
(line 184). -/
def cov2d_x_grad_mul : ℝ :=
  if cov2d_txtz inp idx < -cov2d_limx inp ∨ cov2d_txtz inp idx > cov2d_limx inp then 0 else 1

/-- Mask zeroing the y axis gradient when the y ray slope was clamped
(line 185). -/
def cov2d_y_grad_mul : ℝ :=
  if cov2d_tytz inp idx < -cov2d_limy inp ∨ cov2d_tytz inp idx > cov2d_limy inp then 0 else 1

/-- Perspective Jacobian J (lines 187 to 189). -/
def cov2d_J : Mat3 :=
  mat3 (inp.h_x / (cov2d_t inp idx).z) 0
    (-(inp.h_x * (cov2d_t inp idx).x) / ((cov2d_t inp idx).z * (cov2d_t inp idx).z))
    0 (inp.h_y / (cov2d_t inp idx).z)
    (-(inp.h_y * (cov2d_t inp idx).y) / ((cov2d_t inp idx).z * (cov2d_t inp idx).z))
    0 0 0

/-- Camera rotation W read from the view matrix (lines 191 to 194). -/
def cov2d_W : Mat3 :=
  mat3 (inp.view_matrix 0) (inp.view_matrix 4) (inp.view_matrix 8)
    (inp.view_matrix 1) (inp.view_matrix 5) (inp.view_matrix 9)
    (inp.view_matrix 2) (inp.view_matrix 6) (inp.view_matrix 10)

/-- The 3D covariance Vrk rebuilt from its six stored entries
(lines 196 to 199). -/
def cov2d_Vrk : Mat3 :=
  mat3 (inp.cov3Ds (6 * idx)) (inp.cov3Ds (6 * idx + 1)) (inp.cov3Ds (6 * idx + 2))
    (inp.cov3Ds (6 * idx + 1)) (inp.cov3Ds (6 * idx + 3)) (inp.cov3Ds (6 * idx + 4))
    (inp.cov3Ds (6 * idx + 2)) (inp.cov3Ds (6 * idx + 4)) (inp.cov3Ds (6 * idx + 5))

/-- T = W * J (line 201). -/
def cov2d_T : Mat3 := mulM (cov2d_W inp) (cov2d_J inp idx)

/-- cov2D = transpose(T) * transpose(Vrk) * T (line 203). -/
def cov2d_cov2D : Mat3 :=
  mulM (mulM (trM (cov2d_T inp idx)) (trM (cov2d_Vrk inp idx))) (cov2d_T inp idx)

/-- Raw 2D covariance entry c_xx before regularization (line 206). -/
def cov2d_c_xx_raw : ℝ := cov2d_cov2D inp idx 0 0

/-- The 2D covariance entry c_xy (line 207); it is never regularized. -/
def cov2d_c_xy : ℝ := cov2d_cov2D inp idx 0 1

/-- Raw 2D covariance entry c_yy before regularization (line 208). -/
def cov2d_c_yy_raw : ℝ := cov2d_cov2D inp idx 1 1

/-- det_cov, the determinant of the unregularized 2D covariance, computed in
the anti-aliasing branch before the diagonal is incremented (line 214). -/
def cov2d_det_cov : ℝ :=
  cov2d_c_xx_raw inp idx * cov2d_c_yy_raw inp idx - cov2d_c_xy inp idx * cov2d_c_xy inp idx

/-- Regularized entry c_xx, after c_xx += h_var with h_var = 0.3; both the
anti-aliasing branch and the plain branch perform this addition
(lines 215, 226). -/
def cov2d_c_xx : ℝ := cov2d_c_xx_raw inp idx + 0.3

/-- Regularized entry c_yy, after c_yy += h_var (lines 216, 227). -/
def cov2d_c_yy : ℝ := cov2d_c_yy_raw inp idx + 0.3

/-- det_cov_plus_h_cov, the determinant after regularization (line 217). -/
def cov2d_det_cov_plus_h_cov : ℝ :=
  cov2d_c_xx inp idx * cov2d_c_yy inp idx - cov2d_c_xy inp idx * cov2d_c_xy inp idx

/-- h_convolution_scaling = sqrt(max(0.000025, det_cov / det_cov_plus_h_cov))
(line 218). -/
def cov2d_h_convolution_scaling : ℝ :=
  Real.sqrt (max 0.000025 (cov2d_det_cov inp idx / cov2d_det_cov_plus_h_cov inp idx))

/-- The value stored back into dL_dopacity[idx]: scaled by the convolution
factor in the anti-aliasing branch (line 221), untouched otherwise. -/
def cov2d_dL_dopacity_out : ℝ :=
  if inp.antialiasing then inp.dL_dopacity idx * cov2d_h_convolution_scaling inp idx
  else inp.dL_dopacity idx

/-- d_h_convolution_scaling = dL_dopacity_v * opacities[idx] (line 220). -/
def cov2d_d_h_convolution_scaling : ℝ := inp.dL_dopacity idx * inp.opacities idx

/-- d_inside_root: initialized to zero (line 211) and only set in the
anti-aliasing branch, where it is zero when the determinant ratio is at or
below 0.000025 (line 222). -/
def cov2d_d_inside_root : ℝ :=
  if inp.antialiasing then
    (if cov2d_det_cov inp idx / cov2d_det_cov_plus_h_cov inp idx ≤ 0.000025 then 0
     else cov2d_d_h_convolution_scaling inp idx / (2 * cov2d_h_convolution_scaling inp idx))
  else 0

/-- denom_f = d_inside_root / sq(w * w + w * (x + y) + x * y - z * z) with
x = c_xx, y = c_yy, z = c_xy, w = h_var (line 241). -/
def cov2d_denom_f : ℝ :=
  cov2d_d_inside_root inp idx /
    sqr (0.3 * 0.3 + 0.3 * (cov2d_c_xx inp idx + cov2d_c_yy inp idx) +
      cov2d_c_xx inp idx * cov2d_c_yy inp idx - cov2d_c_xy inp idx * cov2d_c_xy inp idx)

/-- Anti-aliasing part of dL_dc_xx: the quotient-rule term dL_dx of
line 242, and zero when the flag is off (the initialization of line 230). -/
def cov2d_dL_dc_xx_aa : ℝ :=
  if inp.antialiasing then
    0.3 * (0.3 * cov2d_c_yy inp idx + cov2d_c_yy inp idx * cov2d_c_yy inp idx +
      cov2d_c_xy inp idx * cov2d_c_xy inp idx) * cov2d_denom_f inp idx
  else 0

/-- Anti-aliasing part of dL_dc_yy, the term dL_dy of line 243. -/
def cov2d_dL_dc_yy_aa : ℝ :=
  if inp.antialiasing then
    0.3 * (0.3 * cov2d_c_xx inp idx + cov2d_c_xx inp idx * cov2d_c_xx inp idx +
      cov2d_c_xy inp idx * cov2d_c_xy inp idx) * cov2d_denom_f inp idx
  else 0

/-- Anti-aliasing part of dL_dc_xy, the term dL_dz of line 244. -/
def cov2d_dL_dc_xy_aa : ℝ :=
  if inp.antialiasing then
    -2 * 0.3 * cov2d_c_xy inp idx *
      (0.3 + cov2d_c_xx inp idx + cov2d_c_yy inp idx) * cov2d_denom_f inp idx
  else 0

/-- denom = c_xx * c_yy - c_xy * c_xy over the regularized entries
(line 250). -/
def cov2d_denom : ℝ :=
  cov2d_c_xx inp idx * cov2d_c_yy inp idx - cov2d_c_xy inp idx * cov2d_c_xy inp idx

/-- denom2inv = 1 / (denom * denom + 0.0000001), the epsilon-guarded inverse
squared determinant (line 251). -/
def cov2d_denom2inv : ℝ := 1 / (cov2d_denom inp idx * cov2d_denom inp idx + 0.0000001)

/-- Upstream conic gradient entries read from the strided buffer (line 174). -/
def cov2d_dL_dconic : F3 :=
  { x := inp.dL_dconics (4 * idx)
    y := inp.dL_dconics (4 * idx + 1)
    z := inp.dL_dconics (4 * idx + 3) }

/-- Final dL_dc_xx: the anti-aliasing part plus, when denom2inv is nonzero,
the conic-inversion term of line 259. -/
def cov2d_dL_dc_xx : ℝ :=
  cov2d_dL_dc_xx_aa inp idx +
    (if cov2d_denom2inv inp idx ≠ 0 then
      cov2d_denom2inv inp idx *
        (-(cov2d_c_yy inp idx * cov2d_c_yy inp idx) * (cov2d_dL_dconic inp idx).x +
          2 * cov2d_c_xy inp idx * cov2d_c_yy inp idx * (cov2d_dL_dconic inp idx).y +
          (cov2d_denom inp idx - cov2d_c_xx inp idx * cov2d_c_yy inp idx) *
            (cov2d_dL_dconic inp idx).z)
    else 0)

/-- Final dL_dc_yy: the anti-aliasing part plus the conic-inversion term of
line 260. -/
def cov2d_dL_dc_yy : ℝ :=
  cov2d_dL_dc_yy_aa inp idx +
    (if cov2d_denom2inv inp idx ≠ 0 then
      cov2d_denom2inv inp idx *
        (-(cov2d_c_xx inp idx * cov2d_c_xx inp idx) * (cov2d_dL_dconic inp idx).z +
          2 * cov2d_c_xx inp idx * cov2d_c_xy inp idx * (cov2d_dL_dconic inp idx).y +
          (cov2d_denom inp idx - cov2d_c_xx inp idx * cov2d_c_yy inp idx) *
            (cov2d_dL_dconic inp idx).x)
    else 0)

/-- Final dL_dc_xy: the anti-aliasing part plus the conic-inversion term of
line 261. -/
def cov2d_dL_dc_xy : ℝ :=
  cov2d_dL_dc_xy_aa inp idx +
    (if cov2d_denom2inv inp idx ≠ 0 then
      cov2d_denom2inv inp idx * 2 *
        (cov2d_c_xy inp idx * cov2d_c_yy inp idx * (cov2d_dL_dconic inp idx).x -
          (cov2d_denom inp idx + 2 * cov2d_c_xy inp idx * cov2d_c_xy inp idx) *
            (cov2d_dL_dconic inp idx).y +
          cov2d_c_xx inp idx * cov2d_c_xy inp idx * (cov2d_dL_dconic inp idx).z)
    else 0)

/-- The six 3D covariance gradient entries written to dL_dcov[6 idx + k]:
the bilinear-form pullback of lines 266 to 276 when denom2inv is nonzero,
and the explicit zeroes of lines 280 to 281 otherwise. -/
def cov2d_dL_dcov (k : ℕ) : ℝ :=
  if cov2d_denom2inv inp idx ≠ 0 then
    (if k = 0 then
      cov2d_T inp idx 0 0 * cov2d_T inp idx 0 0 * cov2d_dL_dc_xx inp idx +
        cov2d_T inp idx 0 0 * cov2d_T inp idx 1 0 * cov2d_dL_dc_xy inp idx +
        cov2d_T inp idx 1 0 * cov2d_T inp idx 1 0 * cov2d_dL_dc_yy inp idx
    else if k = 3 then
      cov2d_T inp idx 0 1 * cov2d_T inp idx 0 1 * cov2d_dL_dc_xx inp idx +
        cov2d_T inp idx 0 1 * cov2d_T inp idx 1 1 * cov2d_dL_dc_xy inp idx +
        cov2d_T inp idx 1 1 * cov2d_T inp idx 1 1 * cov2d_dL_dc_yy inp idx
    else if k = 5 then
      cov2d_T inp idx 0 2 * cov2d_T inp idx 0 2 * cov2d_dL_dc_xx inp idx +
        cov2d_T inp idx 0 2 * cov2d_T inp idx 1 2 * cov2d_dL_dc_xy inp idx +
        cov2d_T inp idx 1 2 * cov2d_T inp idx 1 2 * cov2d_dL_dc_yy inp idx
    else if k = 1 then
      2 * cov2d_T inp idx 0 0 * cov2d_T inp idx 0 1 * cov2d_dL_dc_xx inp idx +
        (cov2d_T inp idx 0 0 * cov2d_T inp idx 1 1 +
          cov2d_T inp idx 0 1 * cov2d_T inp idx 1 0) * cov2d_dL_dc_xy inp idx +
        2 * cov2d_T inp idx 1 0 * cov2d_T inp idx 1 1 * cov2d_dL_dc_yy inp idx
    else if k = 2 then
      2 * cov2d_T inp idx 0 0 * cov2d_T inp idx 0 2 * cov2d_dL_dc_xx inp idx +
        (cov2d_T inp idx 0 0 * cov2d_T inp idx 1 2 +
          cov2d_T inp idx 0 2 * cov2d_T inp idx 1 0) * cov2d_dL_dc_xy inp idx +
        2 * cov2d_T inp idx 1 0 * cov2d_T inp idx 1 2 * cov2d_dL_dc_yy inp idx
    else
      2 * cov2d_T inp idx 0 2 * cov2d_T inp idx 0 1 * cov2d_dL_dc_xx inp idx +
        (cov2d_T inp idx 0 1 * cov2d_T inp idx 1 2 +
          cov2d_T inp idx 0 2 * cov2d_T inp idx 1 1) * cov2d_dL_dc_xy inp idx +
        2 * cov2d_T inp idx 1 1 * cov2d_T inp idx 1 2 * cov2d_dL_dc_yy inp idx)
  else 0

/-- dL_dT00 (line 286). -/
def cov2d_dL_dT00 : ℝ :=
  2 * (cov2d_T inp idx 0 0 * cov2d_Vrk inp idx 0 0 + cov2d_T inp idx 0 1 * cov2d_Vrk inp idx 0 1 +
      cov2d_T inp idx 0 2 * cov2d_Vrk inp idx 0 2) * cov2d_dL_dc_xx inp idx +
    (cov2d_T inp idx 1 0 * cov2d_Vrk inp idx 0 0 + cov2d_T inp idx 1 1 * cov2d_Vrk inp idx 0 1 +
      cov2d_T inp idx 1 2 * cov2d_Vrk inp idx 0 2) * cov2d_dL_dc_xy inp idx

/-- dL_dT01 (line 288). -/
def cov2d_dL_dT01 : ℝ :=
  2 * (cov2d_T inp idx 0 0 * cov2d_Vrk inp idx 1 0 + cov2d_T inp idx 0 1 * cov2d_Vrk inp idx 1 1 +
      cov2d_T inp idx 0 2 * cov2d_Vrk inp idx 1 2) * cov2d_dL_dc_xx inp idx +
    (cov2d_T inp idx 1 0 * cov2d_Vrk inp idx 1 0 + cov2d_T inp idx 1 1 * cov2d_Vrk inp idx 1 1 +
      cov2d_T inp idx 1 2 * cov2d_Vrk inp idx 1 2) * cov2d_dL_dc_xy inp idx

/-- dL_dT02 (line 290). -/
def cov2d_dL_dT02 : ℝ :=
  2 * (cov2d_T inp idx 0 0 * cov2d_Vrk inp idx 2 0 + cov2d_T inp idx 0 1 * cov2d_Vrk inp idx 2 1 +
      cov2d_T inp idx 0 2 * cov2d_Vrk inp idx 2 2) * cov2d_dL_dc_xx inp idx +
    (cov2d_T inp idx 1 0 * cov2d_Vrk inp idx 2 0 + cov2d_T inp idx 1 1 * cov2d_Vrk inp idx 2 1 +
      cov2d_T inp idx 1 2 * cov2d_Vrk inp idx 2 2) * cov2d_dL_dc_xy inp idx

/-- dL_dT10 (line 292). -/
def cov2d_dL_dT10 : ℝ :=
  2 * (cov2d_T inp idx 1 0 * cov2d_Vrk inp idx 0 0 + cov2d_T inp idx 1 1 * cov2d_Vrk inp idx 0 1 +
      cov2d_T inp idx 1 2 * cov2d_Vrk inp idx 0 2) * cov2d_dL_dc_yy inp idx +
    (cov2d_T inp idx 0 0 * cov2d_Vrk inp idx 0 0 + cov2d_T inp idx 0 1 * cov2d_Vrk inp idx 0 1 +
      cov2d_T inp idx 0 2 * cov2d_Vrk inp idx 0 2) * cov2d_dL_dc_xy inp idx

/-- dL_dT11 (line 294). -/
def cov2d_dL_dT11 : ℝ :=
  2 * (cov2d_T inp idx 1 0 * cov2d_Vrk inp idx 1 0 + cov2d_T inp idx 1 1 * cov2d_Vrk inp idx 1 1 +
      cov2d_T inp idx 1 2 * cov2d_Vrk inp idx 1 2) * cov2d_dL_dc_yy inp idx +
    (cov2d_T inp idx 0 0 * cov2d_Vrk inp idx 1 0 + cov2d_T inp idx 0 1 * cov2d_Vrk inp idx 1 1 +
      cov2d_T inp idx 0 2 * cov2d_Vrk inp idx 1 2) * cov2d_dL_dc_xy inp idx

/-- dL_dT12 (line 296). -/
def cov2d_dL_dT12 : ℝ :=
  2 * (cov2d_T inp idx 1 0 * cov2d_Vrk inp idx 2 0 + cov2d_T inp idx 1 1 * cov2d_Vrk inp idx 2 1 +
      cov2d_T inp idx 1 2 * cov2d_Vrk inp idx 2 2) * cov2d_dL_dc_yy inp idx +
    (cov2d_T inp idx 0 0 * cov2d_Vrk inp idx 2 0 + cov2d_T inp idx 0 1 * cov2d_Vrk inp idx 2 1 +
      cov2d_T inp idx 0 2 * cov2d_Vrk inp idx 2 2) * cov2d_dL_dc_xy inp idx

/-- dL_dJ00 (line 301). -/
def cov2d_dL_dJ00 : ℝ :=
  cov2d_W inp 0 0 * cov2d_dL_dT00 inp idx + cov2d_W inp 0 1 * cov2d_dL_dT01 inp idx +
    cov2d_W inp 0 2 * cov2d_dL_dT02 inp idx

/-- dL_dJ02 (line 302). -/
def cov2d_dL_dJ02 : ℝ :=
  cov2d_W inp 2 0 * cov2d_dL_dT00 inp idx + cov2d_W inp 2 1 * cov2d_dL_dT01 inp idx +
    cov2d_W inp 2 2 * cov2d_dL_dT02 inp idx

/-- dL_dJ11 (line 303). -/
def cov2d_dL_dJ11 : ℝ :=
  cov2d_W inp 1 0 * cov2d_dL_dT10 inp idx + cov2d_W inp 1 1 * cov2d_dL_dT11 inp idx +
    cov2d_W inp 1 2 * cov2d_dL_dT12 inp idx

/-- dL_dJ12 (line 304). -/
def cov2d_dL_dJ12 : ℝ :=
  cov2d_W inp 2 0 * cov2d_dL_dT10 inp idx + cov2d_W inp 2 1 * cov2d_dL_dT11 inp idx +
    cov2d_W inp 2 2 * cov2d_dL_dT12 inp idx

/-- tz = 1 / t.z (line 306). -/
def cov2d_tz : ℝ := 1 / (cov2d_t inp idx).z

/-- Gradient w.r.t. t.x with the clamp mask (line 311). -/
def cov2d_dL_dtx : ℝ :=
  cov2d_x_grad_mul inp idx * -inp.h_x * (cov2d_tz inp idx * cov2d_tz inp idx) *
    cov2d_dL_dJ02 inp idx

/-- Gradient w.r.t. t.y with the clamp mask (line 312). -/
def cov2d_dL_dty : ℝ :=
  cov2d_y_grad_mul inp idx * -inp.h_y * (cov2d_tz inp idx * cov2d_tz inp idx) *
    cov2d_dL_dJ12 inp idx

/-- Gradient w.r.t. t.z, including the inverse-depth loss term (line 313). -/
def cov2d_dL_dtz : ℝ :=
  -inp.h_x * (cov2d_tz inp idx * cov2d_tz inp idx) * cov2d_dL_dJ00 inp idx -
    inp.h_y * (cov2d_tz inp idx * cov2d_tz inp idx) * cov2d_dL_dJ11 inp idx +
    (2 * inp.h_x * (cov2d_t inp idx).x) *
      (cov2d_tz inp idx * cov2d_tz inp idx * cov2d_tz inp idx) * cov2d_dL_dJ02 inp idx +
    (2 * inp.h_y * (cov2d_t inp idx).y) *
      (cov2d_tz inp idx * cov2d_tz inp idx * cov2d_tz inp idx) * cov2d_dL_dJ12 inp idx -
    inp.dL_dinvdepth idx * (cov2d_tz inp idx * cov2d_tz inp idx)

/-- The projection-induced mean gradient written (overwritten, line 323) to
dL_dmeans[idx]. -/
def cov2d_dL_dmean : F3 :=
  transformVec4x3Transpose
    { x := cov2d_dL_dtx inp idx, y := cov2d_dL_dty inp idx, z := cov2d_dL_dtz inp idx }
    inp.view_matrix

/-- Guard of the computeCov2DCUDA kernel body (lines 164 to 166): the thread
runs only for an in-range, non-culled (positive radius) primitive. -/
def cov2d_active : Prop := idx < inp.P ∧ inp.radii idx > 0

/-- The value of the dL_dmeans[idx] buffer cell after computeCov2DCUDA, given
its prior value: the kernel overwrites it for an active primitive and leaves
it alone otherwise. -/
def cov2d_means_cell (prior : F3) : F3 :=
  if idx < inp.P ∧ inp.radii idx > 0 then cov2d_dL_dmean inp idx else prior

/-- The value of the dL_dopacity[idx] buffer cell after computeCov2DCUDA,
given that the input structure carries its prior value. -/
def cov2d_opacity_cell : ℝ :=
  if idx < inp.P ∧ inp.radii idx > 0 then cov2d_dL_dopacity_out inp idx else inp.dL_dopacity idx

end Cov2D

instance : Zero F3 := ⟨⟨0, 0, 0⟩⟩

instance : Add F3 := ⟨fun a b => ⟨a.x + b.x, a.y + b.y, a.z + b.z⟩⟩

instance : Sub F3 := ⟨fun a b => ⟨a.x - b.x, a.y - b.y, a.z - b.z⟩⟩

instance : SMul ℝ F3 := ⟨fun s a => ⟨s * a.x, s * a.y, s * a.z⟩⟩

/-- Dot product of glm::vec3 values. -/
def dot3 (a b : F3) : ℝ := a.x * b.x + a.y * b.y + a.z * b.z

/-- View of a flat float buffer as an array of glm::vec3, as the source does
by pointer reinterpretation. -/
def vec3At (b : ℕ → ℝ) (i : ℕ) : F3 := ⟨b (3 * i), b (3 * i + 1), b (3 * i + 2)⟩

section Cov3D

variable (idx : ℕ) (scale : F3) (mod : ℝ) (rot : F4) (dL_dcov3Ds : ℕ → ℝ)

/-- Rotation matrix built from an (unnormalized) quaternion with components
r, x, y, z, exactly the constructor of backward.cu lines 337 to 341; kept as
a function of the four scalars so its quaternion Jacobian can be stated. -/
def quatR (r x y z : ℝ) : Mat3 :=
  mat3 (1 - 2 * (y * y + z * z)) (2 * (x * y - r * z)) (2 * (x * z + r * y))
    (2 * (x * y + r * z)) (1 - 2 * (x * x + z * z)) (2 * (y * z - r * x))
    (2 * (x * z - r * y)) (2 * (y * z + r * x)) (1 - 2 * (x * x + y * y))

/-- R recomputed from the quaternion rot = (r, x, y, z) (line 331: the
normalization is commented out in the source, q = rot). -/
def cov3d_R : Mat3 := quatR rot.x rot.y rot.z rot.w

/-- The scaled scale vector s = mod * scale (line 345). -/
def cov3d_s : F3 := ⟨mod * scale.x, mod * scale.y, mod * scale.z⟩

/-- Diagonal scale matrix S (lines 343 to 348). -/
def cov3d_S : Mat3 :=
  mat3 (cov3d_s scale mod).x 0 0 0 (cov3d_s scale mod).y 0 0 0 (cov3d_s scale mod).z

/-- M = S * R (line 350). -/
def cov3d_M : Mat3 := mulM (cov3d_S scale mod) (cov3d_R rot)

/-- The six covariance loss gradients in matrix form, with half weight on
off-diagonal entries (lines 358 to 362). -/
def cov3d_dL_dSigma : Mat3 :=
  mat3 (dL_dcov3Ds (6 * idx)) (0.5 * dL_dcov3Ds (6 * idx + 1)) (0.5 * dL_dcov3Ds (6 * idx + 2))
    (0.5 * dL_dcov3Ds (6 * idx + 1)) (dL_dcov3Ds (6 * idx + 3)) (0.5 * dL_dcov3Ds (6 * idx + 4))
    (0.5 * dL_dcov3Ds (6 * idx + 2)) (0.5 * dL_dcov3Ds (6 * idx + 4)) (dL_dcov3Ds (6 * idx + 5))

/-- dL_dM = 2 * M * dL_dSigma (line 366). -/
def cov3d_dL_dM : Mat3 :=
  fun c r => 2 * mulM (cov3d_M scale mod rot) (cov3d_dL_dSigma idx dL_dcov3Ds) c r

/-- The scale gradient: per-axis dot of the rows of R with the columns of the
transposed M gradient (lines 368 to 375). -/
def cov3d_dL_dscale : F3 :=
  { x := ∑ k : Fin 3, trM (cov3d_R rot) 0 k * trM (cov3d_dL_dM idx scale mod rot dL_dcov3Ds) 0 k
    y := ∑ k : Fin 3, trM (cov3d_R rot) 1 k * trM (cov3d_dL_dM idx scale mod rot dL_dcov3Ds) 1 k
    z := ∑ k : Fin 3, trM (cov3d_R rot) 2 k * trM (cov3d_dL_dM idx scale mod rot dL_dcov3Ds) 2 k }

/-- dL_dMt after its columns are scaled by s (lines 377 to 379). -/
def cov3d_dL_dMts : Mat3 :=
  fun c r =>
    trM (cov3d_dL_dM idx scale mod rot dL_dcov3Ds) c r *
      v3 (cov3d_s scale mod).x (cov3d_s scale mod).y (cov3d_s scale mod).z c

/-- The quaternion gradient dL_dq written to dL_drots[idx] (lines 382 to 390);
the commented-out dnormvdv renormalization is absent, the raw value is
stored. -/
def cov3d_dL_drot : F4 :=
  { x :=
      2 * rot.w *
          (cov3d_dL_dMts idx scale mod rot dL_dcov3Ds 0 1 -
            cov3d_dL_dMts idx scale mod rot dL_dcov3Ds 1 0) +
        2 * rot.z *
          (cov3d_dL_dMts idx scale mod rot dL_dcov3Ds 2 0 -
            cov3d_dL_dMts idx scale mod rot dL_dcov3Ds 0 2) +
        2 * rot.y *
          (cov3d_dL_dMts idx scale mod rot dL_dcov3Ds 1 2 -
            cov3d_dL_dMts idx scale mod rot dL_dcov3Ds 2 1)
    y :=
      2 * rot.z *
          (cov3d_dL_dMts idx scale mod rot dL_dcov3Ds 1 0 +
            cov3d_dL_dMts idx scale mod rot dL_dcov3Ds 0 1) +
        2 * rot.w *
          (cov3d_dL_dMts idx scale mod rot dL_dcov3Ds 2 0 +
            cov3d_dL_dMts idx scale mod rot dL_dcov3Ds 0 2) +
        2 * rot.x *
          (cov3d_dL_dMts idx scale mod rot dL_dcov3Ds 1 2 -
            cov3d_dL_dMts idx scale mod rot dL_dcov3Ds 2 1) -
        4 * rot.y *
          (cov3d_dL_dMts idx scale mod rot dL_dcov3Ds 2 2 +
            cov3d_dL_dMts idx scale mod rot dL_dcov3Ds 1 1)
    z :=
      2 * rot.y *
          (cov3d_dL_dMts idx scale mod rot dL_dcov3Ds 1 0 +
            cov3d_dL_dMts idx scale mod rot dL_dcov3Ds 0 1) +
        2 * rot.x *
          (cov3d_dL_dMts idx scale mod rot dL_dcov3Ds 2 0 -
            cov3d_dL_dMts idx scale mod rot dL_dcov3Ds 0 2) +
        2 * rot.w *
          (cov3d_dL_dMts idx scale mod rot dL_dcov3Ds 1 2 +
            cov3d_dL_dMts idx scale mod rot dL_dcov3Ds 2 1) -
        4 * rot.z *
          (cov3d_dL_dMts idx scale mod rot dL_dcov3Ds 2 2 +
            cov3d_dL_dMts idx scale mod rot dL_dcov3Ds 0 0)
    w :=
      2 * rot.x *
          (cov3d_dL_dMts idx scale mod rot dL_dcov3Ds 0 1 -
            cov3d_dL_dMts idx scale mod rot dL_dcov3Ds 1 0) +
        2 * rot.y *
          (cov3d_dL_dMts idx scale mod rot dL_dcov3Ds 2 0 +
            cov3d_dL_dMts idx scale mod rot dL_dcov3Ds 0 2) +
        2 * rot.z *
          (cov3d_dL_dMts idx scale mod rot dL_dcov3Ds 1 2 +
            cov3d_dL_dMts idx scale mod rot dL_dcov3Ds 2 1) -
        4 * rot.w *
          (cov3d_dL_dMts idx scale mod rot dL_dcov3Ds 1 1 +
            cov3d_dL_dMts idx scale mod rot dL_dcov3Ds 0 0) }

end Cov3D

/-- Modelled from the spec: SH_C0 of auxiliary.h (not under src/), the degree
zero real spherical harmonics constant. -/
def SH_C0 : ℝ := 0.28209479177387814

/-- Modelled from the spec: SH_C1 of auxiliary.h (not under src/). -/
def SH_C1 : ℝ := 0.4886025119029199

/-- Modelled from the spec: the degree two constant table SH_C2 of
auxiliary.h (not under src/). -/
def SH_C2 : ℕ → ℝ := fun i =>
  if i = 0 then 1.0925484305920792
  else if i = 1 then -1.0925484305920792
  else if i = 2 then 0.31539156525252005
  else if i = 3 then -1.0925484305920792
  else 0.5462742152960396

/-- Modelled from the spec: the degree three constant table SH_C3 of
auxiliary.h (not under src/). -/
def SH_C3 : ℕ → ℝ := fun i =>
  if i = 0 then -0.5900435899266435
  else if i = 1 then 2.890611442640554
  else if i = 2 then -0.4570457994644658
  else if i = 3 then 0.3731763325901154
  else if i = 4 then -0.4570457994644658
  else if i = 5 then 1.445305721320277
  else -0.5900435899266435

/-- Modelled from the spec: helper dnormvdv of auxiliary.h (not under src/);
the spec calls it the standard unit-vector (vector normalization) backward
rule, pushing a gradient dv through v / length(v). -/
def dnormvdv (v dv : F3) : F3 :=
  let sum2 := v.x * v.x + v.y * v.y + v.z * v.z
  let invsum32 := 1 / Real.sqrt (sum2 * sum2 * sum2)
  { x := ((sum2 - v.x * v.x) * dv.x - v.y * v.x * dv.y - v.z * v.x * dv.z) * invsum32
    y := (-v.x * v.y * dv.x + (sum2 - v.y * v.y) * dv.y - v.z * v.y * dv.z) * invsum32
    z := (-v.x * v.z * dv.x - v.y * v.z * dv.y + (sum2 - v.z * v.z) * dv.z) * invsum32 }

/-- Arguments of device function computeColorFromSH (backward.cu line 23). -/
structure SHIn where
  idx : ℕ
  deg : ℕ
  max_coeffs : ℕ
  means : ℕ → F3
  campos : F3
  dc : ℕ → ℝ
  shs : ℕ → ℝ
  clamped : ℕ → Bool
  dL_dcolor : ℕ → ℝ

section SH

variable (s : SHIn)

/-- dir_orig = pos - campos (line 27). -/
def sh_dir_orig : F3 := s.means s.idx - s.campos

/-- The normalized view direction dir (line 28). -/
def sh_dir : F3 :=
  (1 / Real.sqrt (dot3 (sh_dir_orig s) (sh_dir_orig s))) • sh_dir_orig s

/-- The SH coefficient triple sh[i] of this Gaussian (line 31). -/
def sh_vec (i : ℕ) : F3 := vec3At s.shs (s.idx * s.max_coeffs + i)

/-- Upstream color gradient with the forward clamp mask applied per channel
(lines 35 to 38). -/
def sh_dL_dRGB : F3 :=
  { x := (vec3At s.dL_dcolor s.idx).x * (if s.clamped (3 * s.idx) then 0 else 1)
    y := (vec3At s.dL_dcolor s.idx).y * (if s.clamped (3 * s.idx + 1) then 0 else 1)
    z := (vec3At s.dL_dcolor s.idx).z * (if s.clamped (3 * s.idx + 2) then 0 else 1) }

/-- dRGBdx: zero at degree 0, assigned at degree 1 and extended by the
degree 2 and degree 3 bands (lines 40, 63, 83, 104). -/
def sh_dRGBdx : F3 :=
  if s.deg > 0 then
    (-SH_C1) • sh_vec s 2 +
      (if s.deg > 1 then
        (SH_C2 0 * (sh_dir s).y) • sh_vec s 3 +
          (SH_C2 2 * 2 * (-(sh_dir s).x)) • sh_vec s 5 +
          (SH_C2 3 * (sh_dir s).z) • sh_vec s 6 +
          (SH_C2 4 * 2 * (sh_dir s).x) • sh_vec s 7 +
          (if s.deg > 2 then
            (SH_C3 0 * (3 * 2 * ((sh_dir s).x * (sh_dir s).y))) • sh_vec s 8 +
              (SH_C3 1 * ((sh_dir s).y * (sh_dir s).z)) • sh_vec s 9 +
              (SH_C3 2 * (-2 * ((sh_dir s).x * (sh_dir s).y))) • sh_vec s 10 +
              (SH_C3 3 * (-3 * 2 * ((sh_dir s).x * (sh_dir s).z))) • sh_vec s 11 +
              (SH_C3 4 *
                  (-3 * ((sh_dir s).x * (sh_dir s).x) + 4 * ((sh_dir s).z * (sh_dir s).z) -
                    (sh_dir s).y * (sh_dir s).y)) • sh_vec s 12 +
              (SH_C3 5 * (2 * ((sh_dir s).x * (sh_dir s).z))) • sh_vec s 13 +
              (SH_C3 6 * (3 * ((sh_dir s).x * (sh_dir s).x - (sh_dir s).y * (sh_dir s).y))) •
                sh_vec s 14
          else 0)
      else 0)
  else 0

/-- dRGBdy (lines 41, 64, 84, 113). -/
def sh_dRGBdy : F3 :=
  if s.deg > 0 then
    (-SH_C1) • sh_vec s 0 +
      (if s.deg > 1 then
        (SH_C2 0 * (sh_dir s).x) • sh_vec s 3 +
          (SH_C2 1 * (sh_dir s).z) • sh_vec s 4 +
          (SH_C2 2 * 2 * (-(sh_dir s).y)) • sh_vec s 5 +
          (SH_C2 4 * 2 * (-(sh_dir s).y)) • sh_vec s 7 +
          (if s.deg > 2 then
            (SH_C3 0 * (3 * ((sh_dir s).x * (sh_dir s).x - (sh_dir s).y * (sh_dir s).y))) •
                sh_vec s 8 +
              (SH_C3 1 * ((sh_dir s).x * (sh_dir s).z)) • sh_vec s 9 +
              (SH_C3 2 *
                  (-3 * ((sh_dir s).y * (sh_dir s).y) + 4 * ((sh_dir s).z * (sh_dir s).z) -
                    (sh_dir s).x * (sh_dir s).x)) • sh_vec s 10 +
              (SH_C3 3 * (-3 * 2 * ((sh_dir s).y * (sh_dir s).z))) • sh_vec s 11 +
              (SH_C3 4 * (-2 * ((sh_dir s).x * (sh_dir s).y))) • sh_vec s 12 +
              (SH_C3 5 * (-2 * ((sh_dir s).y * (sh_dir s).z))) • sh_vec s 13 +
              (SH_C3 6 * (-3 * 2 * ((sh_dir s).x * (sh_dir s).y))) • sh_vec s 14
          else 0)
      else 0)
  else 0

/-- dRGBdz (lines 42, 65, 85, 122). -/
def sh_dRGBdz : F3 :=
  if s.deg > 0 then
    SH_C1 • sh_vec s 1 +
      (if s.deg > 1 then
        (SH_C2 1 * (sh_dir s).y) • sh_vec s 4 +
          (SH_C2 2 * 2 * 2 * (sh_dir s).z) • sh_vec s 5 +
          (SH_C2 3 * (sh_dir s).x) • sh_vec s 6 +
          (if s.deg > 2 then
            (SH_C3 1 * ((sh_dir s).x * (sh_dir s).y)) • sh_vec s 9 +
              (SH_C3 2 * (4 * 2 * ((sh_dir s).y * (sh_dir s).z))) • sh_vec s 10 +
              (SH_C3 3 *
                  (3 * (2 * ((sh_dir s).z * (sh_dir s).z) - (sh_dir s).x * (sh_dir s).x -
                    (sh_dir s).y * (sh_dir s).y))) • sh_vec s 11 +
              (SH_C3 4 * (4 * 2 * ((sh_dir s).x * (sh_dir s).z))) • sh_vec s 12 +
              (SH_C3 5 * ((sh_dir s).x * (sh_dir s).x - (sh_dir s).y * (sh_dir s).y)) •
                sh_vec s 13
          else 0)
      else 0)
  else 0

/-- The direct color gradient written to dL_ddc (lines 52 to 53). -/
def sh_dL_ddc : F3 := SH_C0 • sh_dL_dRGB s

/-- The direction gradient dL_ddir (line 135). -/
def sh_dL_ddir : F3 :=
  { x := dot3 (sh_dRGBdx s) (sh_dL_dRGB s)
    y := dot3 (sh_dRGBdy s) (sh_dL_dRGB s)
    z := dot3 (sh_dRGBdz s) (sh_dL_dRGB s) }

/-- The increment computeColorFromSH adds (line 143, an addition, not an
overwrite) to dL_dmeans[idx]: the direction gradient pushed through the
normalization backward rule (line 138). -/
def sh_dL_dmean_inc : F3 := dnormvdv (sh_dir_orig s) (sh_dL_ddir s)

end SH

/-- Modelled from the spec: helper transformPoint4x4 of auxiliary.h (not
under src/), the full homogeneous action of the column-major projection
matrix. -/
def transformPoint4x4 (p : F3) (m : ℕ → ℝ) : F4 :=
  { x := m 0 * p.x + m 4 * p.y + m 8 * p.z + m 12
    y := m 1 * p.x + m 5 * p.y + m 9 * p.z + m 13
    z := m 2 * p.x + m 6 * p.y + m 10 * p.z + m 14
    w := m 3 * p.x + m 7 * p.y + m 11 * p.z + m 15 }

/-- Inputs of the preprocessCUDA kernel (backward.cu lines 397 to 417); the
nullable shs and scales pointers become Option values. -/
structure PreIn where
  P : ℕ
  D : ℕ
  M : ℕ
  means : ℕ → F3
  radii : ℕ → ℤ
  dc : ℕ → ℝ
  shs_opt : Option (ℕ → ℝ)
  clamped : ℕ → Bool
  scales_opt : Option (ℕ → F3)
  rotations : ℕ → F4
  scale_modifier : ℝ
  proj : ℕ → ℝ
  campos : F3
  dL_dmean2D : ℕ → F4
  dL_dcolor : ℕ → ℝ
  dL_dcov3D : ℕ → ℝ

section Preprocess

variable (p : PreIn) (idx : ℕ)

/-- The homogeneous clip-space position m_hom (line 426). -/
def pre_m_hom : F4 := transformPoint4x4 (p.means idx) p.proj

/-- m_w = 1 / (m_hom.w + 0.0000001), the epsilon-guarded perspective divide
(line 427). -/
def pre_m_w : ℝ := 1 / ((pre_m_hom p idx).w + 0.0000001)

/-- mul1 (line 432). -/
def pre_mul1 : ℝ :=
  (p.proj 0 * (p.means idx).x + p.proj 4 * (p.means idx).y + p.proj 8 * (p.means idx).z +
      p.proj 12) * pre_m_w p idx * pre_m_w p idx

/-- mul2 (line 433). -/
def pre_mul2 : ℝ :=
  (p.proj 1 * (p.means idx).x + p.proj 5 * (p.means idx).y + p.proj 9 * (p.means idx).z +
      p.proj 13) * pre_m_w p idx * pre_m_w p idx

/-- The projection-induced 3D mean gradient from the screen-space mean
gradient (lines 434 to 436). -/
def pre_dL_dmean : F3 :=
  { x :=
      (p.proj 0 * pre_m_w p idx - p.proj 3 * pre_mul1 p idx) * (p.dL_dmean2D idx).x +
        (p.proj 1 * pre_m_w p idx - p.proj 3 * pre_mul2 p idx) * (p.dL_dmean2D idx).y
    y :=
      (p.proj 4 * pre_m_w p idx - p.proj 7 * pre_mul1 p idx) * (p.dL_dmean2D idx).x +
        (p.proj 5 * pre_m_w p idx - p.proj 7 * pre_mul2 p idx) * (p.dL_dmean2D idx).y
    z :=
      (p.proj 8 * pre_m_w p idx - p.proj 11 * pre_mul1 p idx) * (p.dL_dmean2D idx).x +
        (p.proj 9 * pre_m_w p idx - p.proj 11 * pre_mul2 p idx) * (p.dL_dmean2D idx).y }

/-- The computeColorFromSH argument pack built by the call of line 444. -/
def pre_shIn (shs : ℕ → ℝ) : SHIn :=
  { idx := idx, deg := p.D, max_coeffs := p.M, means := p.means, campos := p.campos,
    dc := p.dc, shs := shs, clamped := p.clamped, dL_dcolor := p.dL_dcolor }

/-- The dL_dmeans[idx] buffer cell after preprocessCUDA, from its prior
value: for an active primitive the kernel adds the projection part
(line 440) and, when colors are SH-derived, computeColorFromSH adds its own
increment (line 143); otherwise the cell is untouched. -/
def preprocess_means_cell (prior : F3) : F3 :=
  if idx < p.P ∧ p.radii idx > 0 then
    match p.shs_opt with
    | some shs => prior + pre_dL_dmean p idx + sh_dL_dmean_inc (pre_shIn p idx shs)
    | none => prior + pre_dL_dmean p idx
  else prior

end Preprocess

/-- Arguments of the host wrapper BACKWARD::preprocess (lines 662 to 690),
which launches computeCov2DCUDA and then preprocessCUDA on the same
buffers. -/
structure HostPreIn where
  P : ℕ
  D : ℕ
  M : ℕ
  means3D : ℕ → F3
  radii : ℕ → ℤ
  dc : ℕ → ℝ
  shs_opt : Option (ℕ → ℝ)
  clamped : ℕ → Bool
  opacities : ℕ → ℝ
  scales_opt : Option (ℕ → F3)
  rotations : ℕ → F4
  scale_modifier : ℝ
  cov3Ds : ℕ → ℝ
  viewmatrix : ℕ → ℝ
  projmatrix : ℕ → ℝ
  focal_x : ℝ
  focal_y : ℝ
  tan_fovx : ℝ
  tan_fovy : ℝ
  campos : F3
  dL_dmean2D : ℕ → F4
  dL_dconic : ℕ → ℝ
  dL_dinvdepth : ℕ → ℝ
  dL_dopacity : ℕ → ℝ
  dL_dcolor : ℕ → ℝ
  dL_dcov3D : ℕ → ℝ
  antialiasing : Bool

/-- The computeCov2DCUDA launch of line 696, as its argument pack. -/
def hostCov2DIn (h : HostPreIn) : Cov2DIn :=
  { P := h.P, means := h.means3D, radii := h.radii, cov3Ds := h.cov3Ds, h_x := h.focal_x,
    h_y := h.focal_y, tan_fovx := h.tan_fovx, tan_fovy := h.tan_fovy,
    view_matrix := h.viewmatrix, opacities := h.opacities, dL_dconics := h.dL_dconic,
    dL_dopacity := h.dL_dopacity, dL_dinvdepth := h.dL_dinvdepth,
    antialiasing := h.antialiasing }

/-- The preprocessCUDA launch of line 717, as its argument pack. -/
def hostPreIn (h : HostPreIn) : PreIn :=
  { P := h.P, D := h.D, M := h.M, means := h.means3D, radii := h.radii, dc := h.dc,
    shs_opt := h.shs_opt, clamped := h.clamped, scales_opt := h.scales_opt,
    rotations := h.rotations, scale_modifier := h.scale_modifier, proj := h.projmatrix,
    campos := h.campos, dL_dmean2D := h.dL_dmean2D, dL_dcolor := h.dL_dcolor,
    dL_dcov3D := h.dL_dcov3D }

/-- The dL_dmeans[idx] buffer cell after the whole BACKWARD::preprocess
pipeline: computeCov2DCUDA writes first, preprocessCUDA accumulates after
it. -/
def backward_preprocess_means_cell (h : HostPreIn) (idx : ℕ) (prior : F3) : F3 :=
  preprocess_means_cell (hostPreIn h) idx (cov2d_means_cell (hostCov2DIn h) idx prior)

/-- Inputs of the PerGaussianRenderCUDA kernel (backward.cu lines 453 to
477), over C color channels.  BX and BY model the compile-time tile sizes
BLOCK_X and BLOCK_Y of config.h, kept as parameters; flat device buffers are
functions of their flat index with the index arithmetic of the source. -/
structure RenderIn (C : ℕ) where
  W : ℕ
  H : ℕ
  BX : ℕ
  BY : ℕ
  B : ℕ
  ranges : ℕ → ℕ × ℕ
  point_list : ℕ → ℕ
  per_tile_bucket_offset : ℕ → ℕ
  bucket_to_tile : ℕ → ℕ
  sampled_T : ℕ → ℝ
  sampled_ar : ℕ → ℝ
  sampled_ard : ℕ → ℝ
  bg_color : ℕ → ℝ
  points_xy_image : ℕ → F2
  conic_opacity : ℕ → F4
  colors : ℕ → ℝ
  depths : ℕ → ℝ
  final_Ts : ℕ → ℝ
  n_contrib : ℕ → ℕ
  max_contrib : ℕ → ℕ
  pixel_colors : ℕ → ℝ
  pixel_invDepths : ℕ → ℝ
  dL_dpixels : ℕ → ℝ
  dL_invdepths : ℕ → ℝ

section RenderDefs

variable {C : ℕ} (inp : RenderIn C) (b : ℕ)

/-- BLOCK_SIZE = BLOCK_X * BLOCK_Y, the pixel count of one tile. -/
def rbBS : ℕ := inp.BX * inp.BY

/-- tile_id of bucket b (line 492). -/
def rb_tile : ℕ := inp.bucket_to_tile b

/-- The tile's range into the sorted point list (line 493). -/
def rb_range : ℕ × ℕ := inp.ranges (rb_tile inp b)

/-- num_splats_in_tile (line 494). -/
def rb_num_splats : ℕ := (rb_range inp b).2 - (rb_range inp b).1

/-- bbm, the number of buckets belonging to earlier tiles (line 496). -/
def rb_bbm : ℕ :=
  if rb_tile inp b = 0 then 0 else inp.per_tile_bucket_offset (rb_tile inp b - 1)

/-- bucket_idx_in_tile (line 497); unsigned arithmetic, so truncated
subtraction. -/
def rb_bit : ℕ := b - rb_bbm inp b

/-- splat_idx_in_tile of warp lane j (line 498). -/
def rb_splat_idx_in_tile (j : ℕ) : ℕ := rb_bit inp b * 32 + j

/-- splat_idx_global of lane j (line 499). -/
def rb_splat_idx_global (j : ℕ) : ℕ := (rb_range inp b).1 + rb_splat_idx_in_tile inp b j

/-- valid_splat of lane j (line 500). -/
def rb_valid_splat (j : ℕ) : Prop := rb_splat_idx_in_tile inp b j < rb_num_splats inp b

instance (j : ℕ) : Decidable (rb_valid_splat inp b j) := by
  unfold rb_valid_splat; infer_instance

/-- The whole-bucket early-out condition of lines 502 to 505: the bucket's
first primitive index is at or beyond the tile's max contributor count. -/
def rb_early_exit : Prop := rb_bit inp b * 32 ≥ inp.max_contrib (rb_tile inp b)

instance : Decidable (rb_early_exit inp b) := by
  unfold rb_early_exit; infer_instance

/-- gaussian_idx of lane j: loaded from the point list for a valid splat,
the zero initializer otherwise (lines 508, 514). -/
def rb_gaussian_idx (j : ℕ) : ℕ :=
  if rb_valid_splat inp b j then inp.point_list (rb_splat_idx_global inp b j) else 0

/-- Register xy of lane j (lines 509, 515). -/
def rb_xy (j : ℕ) : F2 :=
  if rb_valid_splat inp b j then inp.points_xy_image (rb_gaussian_idx inp b j) else ⟨0, 0⟩

/-- Register con_o of lane j (lines 510, 516). -/
def rb_con_o (j : ℕ) : F4 :=
  if rb_valid_splat inp b j then inp.conic_opacity (rb_gaussian_idx inp b j) else ⟨0, 0, 0, 0⟩

/-- Register c[ch] of lane j (lines 511, 517 to 518). -/
def rb_c (j : ℕ) (ch : ℕ) : ℝ :=
  if rb_valid_splat inp b j then inp.colors (rb_gaussian_idx inp b j * C + ch) else 0

/-- Register invd of lane j (lines 512, 519). -/
def rb_invd (j : ℕ) : ℝ :=
  if rb_valid_splat inp b j then 1 / inp.depths (rb_gaussian_idx inp b j) else 0

/-- horizontal_blocks (line 533). -/
def rb_horizontal_blocks : ℕ := (inp.W + inp.BX - 1) / inp.BX

/-- pix_min of the tile (lines 534 to 535). -/
def rb_pix_min : ℕ × ℕ :=
  (rb_tile inp b % rb_horizontal_blocks inp * inp.BX,
    rb_tile inp b / rb_horizontal_blocks inp * inp.BY)

/-- The pixel of in-tile index idxp (line 566). -/
def rb_pix (idxp : ℕ) : ℕ × ℕ :=
  ((rb_pix_min inp b).1 + idxp % inp.BX, (rb_pix_min inp b).2 + idxp / inp.BX)

/-- pix_id, the flat image index of that pixel (line 567). -/
def rb_pix_id (idxp : ℕ) : ℕ := inp.W * (rb_pix inp b idxp).2 + (rb_pix inp b idxp).1

/-- valid_pixel (line 569). -/
def rb_valid_pixel (idxp : ℕ) : Prop :=
  (rb_pix inp b idxp).1 < inp.W ∧ (rb_pix inp b idxp).2 < inp.H

instance (idxp : ℕ) : Decidable (rb_valid_pixel inp b idxp) := by
  unfold rb_valid_pixel; infer_instance

end RenderDefs

/-- The per-lane shuffled state of PerGaussianRenderCUDA (the register block
of lines 538 to 546, the values the warp shifts up each step). -/
structure SVars (C : ℕ) where
  T : ℝ
  last_contributor : ℝ
  T_final : ℝ
  ar : Fin C → ℝ
  dL_dpixel : Fin C → ℝ
  ard : ℝ
  dL_invdepth : ℝ

/-- The per-lane gradient accumulation registers (lines 523 to 530). -/
structure RAcc (C : ℕ) where
  mean2D_x : ℝ
  mean2D_y : ℝ
  conic2D_x : ℝ
  conic2D_y : ℝ
  conic2D_w : ℝ
  opacity : ℝ
  colors : Fin C → ℝ
  invdepths : ℝ

attribute [ext] SVars RAcc

instance {C : ℕ} : Zero (RAcc C) := ⟨⟨0, 0, 0, 0, 0, 0, fun _ => 0, 0⟩⟩

instance {C : ℕ} : Add (RAcc C) :=
  ⟨fun a b =>
    ⟨a.mean2D_x + b.mean2D_x, a.mean2D_y + b.mean2D_y, a.conic2D_x + b.conic2D_x,
      a.conic2D_y + b.conic2D_y, a.conic2D_w + b.conic2D_w, a.opacity + b.opacity,
      fun ch => a.colors ch + b.colors ch, a.invdepths + b.invdepths⟩⟩

instance {C : ℕ} : AddCommMonoid (RAcc C) where
  add_assoc a b c := by ext <;> exact add_assoc _ _ _
  zero_add a := by ext <;> exact zero_add _
  add_zero a := by ext <;> exact add_zero _
  add_comm a b := by ext <;> exact add_comm _ _
  nsmul := nsmulRec

@[simp] lemma RAcc_zero_mean2D_x {C : ℕ} : (0 : RAcc C).mean2D_x = 0 := rfl

@[simp] lemma RAcc_zero_mean2D_y {C : ℕ} : (0 : RAcc C).mean2D_y = 0 := rfl

@[simp] lemma RAcc_zero_conic2D_x {C : ℕ} : (0 : RAcc C).conic2D_x = 0 := rfl

@[simp] lemma RAcc_zero_conic2D_y {C : ℕ} : (0 : RAcc C).conic2D_y = 0 := rfl

@[simp] lemma RAcc_zero_conic2D_w {C : ℕ} : (0 : RAcc C).conic2D_w = 0 := rfl

@[simp] lemma RAcc_zero_opacity {C : ℕ} : (0 : RAcc C).opacity = 0 := rfl

@[simp] lemma RAcc_zero_colors {C : ℕ} (ch : Fin C) : (0 : RAcc C).colors ch = 0 := rfl

@[simp] lemma RAcc_zero_invdepths {C : ℕ} : (0 : RAcc C).invdepths = 0 := rfl

@[simp] lemma RAcc_add_mean2D_x {C : ℕ} (a b : RAcc C) :
    (a + b).mean2D_x = a.mean2D_x + b.mean2D_x := rfl

@[simp] lemma RAcc_add_mean2D_y {C : ℕ} (a b : RAcc C) :
    (a + b).mean2D_y = a.mean2D_y + b.mean2D_y := rfl

@[simp] lemma RAcc_add_conic2D_x {C : ℕ} (a b : RAcc C) :
    (a + b).conic2D_x = a.conic2D_x + b.conic2D_x := rfl

@[simp] lemma RAcc_add_conic2D_y {C : ℕ} (a b : RAcc C) :
    (a + b).conic2D_y = a.conic2D_y + b.conic2D_y := rfl

@[simp] lemma RAcc_add_conic2D_w {C : ℕ} (a b : RAcc C) :
    (a + b).conic2D_w = a.conic2D_w + b.conic2D_w := rfl

@[simp] lemma RAcc_add_opacity {C : ℕ} (a b : RAcc C) :
    (a + b).opacity = a.opacity + b.opacity := rfl

@[simp] lemma RAcc_add_colors {C : ℕ} (a b : RAcc C) (ch : Fin C) :
    (a + b).colors ch = a.colors ch + b.colors ch := rfl

@[simp] lemma RAcc_add_invdepths {C : ℕ} (a b : RAcc C) :
    (a + b).invdepths = a.invdepths + b.invdepths := rfl

section RenderKernel

variable {C : ℕ} (inp : RenderIn C) (b : ℕ)

/-- The state lane 0 reads from the checkpoint and per-pixel buffers when it
starts pixel idxp (lines 573 to 584): the checkpoint color and inverse depth
have the final composited per-pixel outputs subtracted. -/
def rb_load (idxp : ℕ) : SVars C :=
  { T := inp.sampled_T (b * rbBS inp + idxp)
    last_contributor := (inp.n_contrib (rb_pix_id inp b idxp) : ℝ)
    T_final := inp.final_Ts (rb_pix_id inp b idxp)
    ar := fun ch =>
      -inp.pixel_colors ((ch : ℕ) * inp.H * inp.W + rb_pix_id inp b idxp) +
        inp.sampled_ar (b * rbBS inp * C + (ch : ℕ) * rbBS inp + idxp)
    dL_dpixel := fun ch => inp.dL_dpixels ((ch : ℕ) * inp.H * inp.W + rb_pix_id inp b idxp)
    ard := -inp.pixel_invDepths (rb_pix_id inp b idxp) + inp.sampled_ard (b * rbBS inp + idxp)
    dL_invdepth := inp.dL_invdepths (rb_pix_id inp b idxp) }

/-- The pixel offset d of lane j against pixel idxp (line 593). -/
def rb_d (j idxp : ℕ) : F2 :=
  { x := (rb_xy inp b j).x - ((rb_pix inp b idxp).1 : ℝ)
    y := (rb_xy inp b j).y - ((rb_pix inp b idxp).2 : ℝ) }

/-- The Gaussian exponent power (line 594). -/
def rb_power (j idxp : ℕ) : ℝ :=
  -0.5 * ((rb_con_o inp b j).x * (rb_d inp b j idxp).x * (rb_d inp b j idxp).x +
      (rb_con_o inp b j).z * (rb_d inp b j idxp).y * (rb_d inp b j idxp).y) -
    (rb_con_o inp b j).y * (rb_d inp b j idxp).x * (rb_d inp b j idxp).y

/-- The footprint G = exp(power) (line 596). -/
def rb_G (j idxp : ℕ) : ℝ := Real.exp (rb_power inp b j idxp)

/-- alpha = min(0.99, con_o.w * G) (line 597). -/
def rb_alpha (j idxp : ℕ) : ℝ := min 0.99 ((rb_con_o inp b j).w * rb_G inp b j idxp)

/-- The three-term alpha gradient of a composited sample (lines 602 to 619):
the per-channel color term, which reads the running accumulated color after
its own update (hence the alpha-weighted increment inside), the inverse
depth analogue, and the background boundary term weighted by the final
transmittance. -/
def rb_dL_dalpha (j idxp : ℕ) (sv : SVars C) : ℝ :=
  (∑ ch : Fin C,
      (rb_c inp b j ch * sv.T -
          1 / (1 - rb_alpha inp b j idxp) *
            (-(sv.ar ch + rb_alpha inp b j idxp * sv.T * rb_c inp b j ch))) *
        sv.dL_dpixel ch) +
    (rb_invd inp b j * sv.T -
        1 / (1 - rb_alpha inp b j idxp) *
          (-(sv.ard + rb_alpha inp b j idxp * sv.T * rb_invd inp b j))) * sv.dL_invdepth +
    -sv.T_final / (1 - rb_alpha inp b j idxp) *
      ∑ ch : Fin C, inp.bg_color (ch : ℕ) * sv.dL_dpixel ch

/-- The work block of one loop step (lines 587 to 640) for lane j at in-tile
pixel idxp: takes the shuffled state and the lane accumulators, returns
their updated values.  The early continue statements leave both unchanged;
a composited sample updates T, ar, ard and all accumulators. -/
def rb_work (j idxp : ℕ) (sv : SVars C) (acc : RAcc C) : SVars C × RAcc C :=
  if ¬((rb_pix inp b idxp).1 < inp.W ∧ (rb_pix inp b idxp).2 < inp.H) then (sv, acc)
  else if ((rb_splat_idx_in_tile inp b j : ℕ) : ℝ) ≥ sv.last_contributor then (sv, acc)
  else if rb_power inp b j idxp > 0 then (sv, acc)
  else if rb_alpha inp b j idxp < 1 / 255 then (sv, acc)
  else
    let alpha := rb_alpha inp b j idxp
    let G := rb_G inp b j idxp
    let weight := alpha * sv.T
    let ar2 : Fin C → ℝ := fun ch => sv.ar ch + weight * rb_c inp b j ch
    let dL_dalpha := rb_dL_dalpha inp b j idxp sv
    let dL_dG := (rb_con_o inp b j).w * dL_dalpha
    let gdx := G * (rb_d inp b j idxp).x
    let gdy := G * (rb_d inp b j idxp).y
    let dG_ddelx := -gdx * (rb_con_o inp b j).x - gdy * (rb_con_o inp b j).y
    let dG_ddely := -gdy * (rb_con_o inp b j).z - gdx * (rb_con_o inp b j).y
    ({ sv with
        T := sv.T * (1 - alpha)
        ar := ar2
        ard := sv.ard + weight * rb_invd inp b j },
      { mean2D_x := acc.mean2D_x + dL_dG * dG_ddelx * (0.5 * (inp.W : ℝ))
        mean2D_y := acc.mean2D_y + dL_dG * dG_ddely * (0.5 * (inp.H : ℝ))
        conic2D_x := acc.conic2D_x + -0.5 * gdx * (rb_d inp b j idxp).x * dL_dG
        conic2D_y := acc.conic2D_y + -0.5 * gdx * (rb_d inp b j idxp).y * dL_dG
        conic2D_w := acc.conic2D_w + -0.5 * gdy * (rb_d inp b j idxp).y * dL_dG
        opacity := acc.opacity + G * dL_dalpha
        colors := fun ch => acc.colors ch + weight * sv.dL_dpixel ch
        invdepths := acc.invdepths + weight * sv.dL_invdepth })

/-- The warp state: the shuffled registers and the accumulators of every
lane.  Lanes are indexed by naturals; only lanes 0 to 31 are read out, and a
lane only ever reads the lane below it, so this is observationally the
32-lane warp. -/
abbrev WarpSt (C : ℕ) := (ℕ → SVars C) × (ℕ → RAcc C)

/-- The zero-initialized warp state.  The source leaves these registers
uninitialized; every code path that reads a register for actual work first
overwrites it from a checkpoint load followed by shuffles, so the initial
value is immaterial and zero is used here. -/
def rb_init : WarpSt C :=
  (fun _ => ⟨0, 0, 0, fun _ => 0, fun _ => 0, 0, 0⟩, fun _ => 0)

/-- One iteration i of the outer loop (lines 549 to 641): the shuffle-up of
the state block (lines 554 to 562), the checkpoint load by lane 0 when its
pixel index i is a valid in-range pixel (lines 573 to 584), then the work
block for every lane whose pixel index idx = i - lane is in range
(line 587). -/
def rb_step (i : ℕ) (st : WarpSt C) : WarpSt C :=
  let shuf : ℕ → SVars C := fun j => if j = 0 then st.1 0 else st.1 (j - 1)
  let loaded : ℕ → SVars C := fun j =>
    if j = 0 ∧ rb_valid_splat inp b 0 ∧ rb_valid_pixel inp b i ∧ i < rbBS inp then
      rb_load inp b i
    else shuf j
  (fun j =>
      if rb_valid_splat inp b j ∧ j ≤ i ∧ i - j < rbBS inp ∧ rb_valid_pixel inp b (i - j) then
        (rb_work inp b j (i - j) (loaded j) (st.2 j)).1
      else loaded j,
    fun j =>
      if rb_valid_splat inp b j ∧ j ≤ i ∧ i - j < rbBS inp ∧ rb_valid_pixel inp b (i - j) then
        (rb_work inp b j (i - j) (loaded j) (st.2 j)).2
      else st.2 j)

/-- The warp state after the first n iterations of the outer loop. -/
def rb_run : ℕ → WarpSt C
  | 0 => rb_init
  | n + 1 => rb_step inp b n (rb_run n)

/-- The final accumulator block of lane j after the full outer loop of
BLOCK_SIZE + 31 iterations. -/
def rb_finalAcc (j : ℕ) : RAcc C := (rb_run inp b (rbBS inp + 31)).2 j

/-- One flushed atomic-add bundle (lines 644 to 658): the value each valid
lane adds to every per-primitive gradient buffer cell it touches.  The
third and fourth mean2D channels receive the absolute values of the first
and second (lines 648 to 649). -/
structure BucketUpdate (C : ℕ) where
  gaussian : ℕ
  dmean2D_x : ℝ
  dmean2D_y : ℝ
  dmean2D_z : ℝ
  dmean2D_w : ℝ
  dconic2D_x : ℝ
  dconic2D_y : ℝ
  dconic2D_w : ℝ
  dopacity : ℝ
  dcolors : Fin C → ℝ
  dinvdepth : ℝ

/-- Everything bucket warp b atomically adds into the gradient buffers: one
bundle per valid lane, nothing for an invalid bucket (line 483) and nothing
when the early-out of lines 502 to 505 fires before any work. -/
def rb_updates : List (BucketUpdate C) :=
  if b < inp.B ∧ ¬rb_early_exit inp b then
    (List.range 32).filterMap fun j =>
      if rb_valid_splat inp b j then
        some
          { gaussian := rb_gaussian_idx inp b j
            dmean2D_x := (rb_finalAcc inp b j).mean2D_x
            dmean2D_y := (rb_finalAcc inp b j).mean2D_y
            dmean2D_z := |(rb_finalAcc inp b j).mean2D_x|
            dmean2D_w := |(rb_finalAcc inp b j).mean2D_y|
            dconic2D_x := (rb_finalAcc inp b j).conic2D_x
            dconic2D_y := (rb_finalAcc inp b j).conic2D_y
            dconic2D_w := (rb_finalAcc inp b j).conic2D_w
            dopacity := (rb_finalAcc inp b j).opacity
            dcolors := (rb_finalAcc inp b j).colors
            dinvdepth := (rb_finalAcc inp b j).invdepths }
      else none
  else []

end RenderKernel

/-- The running forward compositing state at one pixel: transmittance,
accumulated per-channel color and accumulated inverse depth. -/
structure FwdSt (C : ℕ) where
  T : ℝ
  ar : Fin C → ℝ
  ard : ℝ

section RenderRef

variable {C : ℕ} (inp : RenderIn C) (b : ℕ)

/-- The gaussian index of splat k of the tile of bucket b, counted from the
start of the tile's sorted range. -/
def ft_g (k : ℕ) : ℕ := inp.point_list ((rb_range inp b).1 + k)

/-- Splat k's screen-space mean. -/
def ft_xy (k : ℕ) : F2 := inp.points_xy_image (ft_g inp b k)

/-- Splat k's conic and opacity. -/
def ft_con (k : ℕ) : F4 := inp.conic_opacity (ft_g inp b k)

/-- Splat k's color channel ch. -/
def ft_c (k ch : ℕ) : ℝ := inp.colors (ft_g inp b k * C + ch)

/-- Splat k's inverse depth. -/
def ft_invd (k : ℕ) : ℝ := 1 / inp.depths (ft_g inp b k)

/-- Pixel offset of splat k against in-tile pixel idxp. -/
def ft_d (k idxp : ℕ) : F2 :=
  { x := (ft_xy inp b k).x - ((rb_pix inp b idxp).1 : ℝ)
    y := (ft_xy inp b k).y - ((rb_pix inp b idxp).2 : ℝ) }

/-- The Gaussian exponent of splat k at pixel idxp, the same formula the
kernel recomputes at line 594. -/
def ft_power (k idxp : ℕ) : ℝ :=
  -0.5 * ((ft_con inp b k).x * (ft_d inp b k idxp).x * (ft_d inp b k idxp).x +
      (ft_con inp b k).z * (ft_d inp b k idxp).y * (ft_d inp b k idxp).y) -
    (ft_con inp b k).y * (ft_d inp b k idxp).x * (ft_d inp b k idxp).y

/-- The footprint of splat k at pixel idxp. -/
def ft_G (k idxp : ℕ) : ℝ := Real.exp (ft_power inp b k idxp)

/-- The compositing alpha of splat k at pixel idxp. -/
def ft_alpha (k idxp : ℕ) : ℝ := min 0.99 ((ft_con inp b k).w * ft_G inp b k idxp)

/-- Splat k passes the visibility cutoffs at pixel idxp: non-positive
exponent and alpha at least 1/255. -/
def ft_contrib (k idxp : ℕ) : Prop :=
  ¬ft_power inp b k idxp > 0 ∧ ¬ft_alpha inp b k idxp < 1 / 255

instance (k idxp : ℕ) : Decidable (ft_contrib inp b k idxp) := by
  unfold ft_contrib; infer_instance

/-- Modelled from the spec: the front-to-back forward compositing pass
(forward.cu is not under src/).  The state at pixel idxp after the tile's
first k splats: each splat that is before the pixel's recorded contributor
count and passes the forward visibility cutoffs composites with weight
alpha times the transmittance before it; all later splats, which the
recorded count certifies contributed nothing, leave the state unchanged. -/
def fwd (idxp : ℕ) : ℕ → FwdSt C
  | 0 => ⟨1, fun _ => 0, 0⟩
  | k + 1 =>
    let st := fwd idxp k
    if k < inp.n_contrib (rb_pix_id inp b idxp) ∧ ft_contrib inp b k idxp then
      { T := st.T * (1 - ft_alpha inp b k idxp)
        ar := fun ch =>
          st.ar ch + ft_alpha inp b k idxp * st.T * ft_c inp b k (ch : ℕ)
        ard := st.ard + ft_alpha inp b k idxp * st.T * ft_invd inp b k }
    else st

/-- The reference alpha gradient of the spec-side sequential backward: the
color term against what is composited behind the sample (the difference of
the final and the post-sample forward accumulations), the inverse depth
analogue, and the background boundary term against the final
transmittance. -/
def ref_dL_dalpha (idxp k : ℕ) : ℝ :=
  (∑ ch : Fin C,
      (ft_c inp b k (ch : ℕ) * (fwd inp b idxp k).T -
          1 / (1 - ft_alpha inp b k idxp) *
            ((fwd inp b idxp (inp.n_contrib (rb_pix_id inp b idxp))).ar ch -
              (fwd inp b idxp (k + 1)).ar ch)) *
        inp.dL_dpixels ((ch : ℕ) * inp.H * inp.W + rb_pix_id inp b idxp)) +
    (ft_invd inp b k * (fwd inp b idxp k).T -
        1 / (1 - ft_alpha inp b k idxp) *
          ((fwd inp b idxp (inp.n_contrib (rb_pix_id inp b idxp))).ard -
            (fwd inp b idxp (k + 1)).ard)) * inp.dL_invdepths (rb_pix_id inp b idxp) +
    -(fwd inp b idxp (inp.n_contrib (rb_pix_id inp b idxp))).T / (1 - ft_alpha inp b k idxp) *
      ∑ ch : Fin C,
        inp.bg_color (ch : ℕ) * inp.dL_dpixels ((ch : ℕ) * inp.H * inp.W + rb_pix_id inp b idxp)

/-- The brute-force sequential reverse-compositing reference of the spec:
for each pixel taken alone, the contributing primitives are processed in
compositing order; primitive k receives the per-step gradient formulas
evaluated against forward-recomputed state, with the transmittance before
the sample, the outputs composited behind the sample, and the pixel's final
transmittance all read off the sequential forward pass. -/
def refAcc (idxp k : ℕ) : RAcc C :=
  if rb_valid_pixel inp b idxp ∧ k < inp.n_contrib (rb_pix_id inp b idxp) ∧
      ft_contrib inp b k idxp then
    let T := (fwd inp b idxp k).T
    let alpha := ft_alpha inp b k idxp
    let G := ft_G inp b k idxp
    let weight := alpha * T
    let dL_dpixel : Fin C → ℝ := fun ch =>
      inp.dL_dpixels ((ch : ℕ) * inp.H * inp.W + rb_pix_id inp b idxp)
    let dL_invdepth := inp.dL_invdepths (rb_pix_id inp b idxp)
    let dL_dalpha := ref_dL_dalpha inp b idxp k
    let dL_dG := (ft_con inp b k).w * dL_dalpha
    let gdx := G * (ft_d inp b k idxp).x
    let gdy := G * (ft_d inp b k idxp).y
    let dG_ddelx := -gdx * (ft_con inp b k).x - gdy * (ft_con inp b k).y
    let dG_ddely := -gdy * (ft_con inp b k).z - gdx * (ft_con inp b k).y
    { mean2D_x := dL_dG * dG_ddelx * (0.5 * (inp.W : ℝ))
      mean2D_y := dL_dG * dG_ddely * (0.5 * (inp.H : ℝ))
      conic2D_x := -0.5 * gdx * (ft_d inp b k idxp).x * dL_dG
      conic2D_y := -0.5 * gdx * (ft_d inp b k idxp).y * dL_dG
      conic2D_w := -0.5 * gdy * (ft_d inp b k idxp).y * dL_dG
      opacity := G * dL_dalpha
      colors := fun ch => weight * dL_dpixel ch
      invdepths := weight * dL_invdepth }
  else 0

/-- The sequential state lane j would see at pixel idxp: the checkpoint load
threaded through the work blocks of the earlier lanes of the bucket.  This
is what the shuffle pipeline delivers to lane j, as the invariant lemma
proves. -/
def rb_mid (idxp : ℕ) : ℕ → SVars C
  | 0 => rb_load inp b idxp
  | j + 1 =>
    if rb_valid_splat inp b j ∧ idxp < rbBS inp ∧ rb_valid_pixel inp b idxp then
      (rb_work inp b j idxp (rb_mid idxp j) 0).1
    else rb_mid idxp j

/-- The accumulator increment lane j gains from pixel idxp. -/
def rb_pixContrib (j idxp : ℕ) : RAcc C :=
  if rb_valid_splat inp b j ∧ idxp < rbBS inp ∧ rb_valid_pixel inp b idxp then
    (rb_work inp b j idxp (rb_mid inp b idxp j) 0).2
  else 0

end RenderRef

section RenderEquiv

variable {C : ℕ} (inp : RenderIn C) (b : ℕ)

/-- Lane validity is monotone: if a lane's splat is inside the tile range,
so is every lower lane's. -/
lemma rb_valid_splat_mono {j j' : ℕ} (h : rb_valid_splat inp b j) (hle : j' ≤ j) :
    rb_valid_splat inp b j' := by
  unfold rb_valid_splat rb_splat_idx_in_tile at *
  omega

/-- The state half of the work block does not depend on the accumulators. -/
lemma rb_work_fst_acc (j idxp : ℕ) (sv : SVars C) (a a' : RAcc C) :
    (rb_work inp b j idxp sv a).1 = (rb_work inp b j idxp sv a').1 := by
  unfold rb_work
  split_ifs <;> rfl

/-- The accumulator half of the work block is additive in the incoming
accumulators: it only ever adds increments that do not read them. -/
lemma rb_work_snd_acc (j idxp : ℕ) (sv : SVars C) (a : RAcc C) :
    (rb_work inp b j idxp sv a).2 = a + (rb_work inp b j idxp sv 0).2 := by
  unfold rb_work
  split_ifs <;>
    first
      | exact (add_zero a).symm
      | (ext <;> simp)

/-- One-step unfolding of the forward compositing state. -/
lemma fwd_succ (idxp k : ℕ) :
    fwd inp b idxp (k + 1) =
      if k < inp.n_contrib (rb_pix_id inp b idxp) ∧ ft_contrib inp b k idxp then
        { T := (fwd inp b idxp k).T * (1 - ft_alpha inp b k idxp)
          ar := fun ch =>
            (fwd inp b idxp k).ar ch +
              ft_alpha inp b k idxp * (fwd inp b idxp k).T * ft_c inp b k (ch : ℕ)
          ard :=
            (fwd inp b idxp k).ard +
              ft_alpha inp b k idxp * (fwd inp b idxp k).T * ft_invd inp b k }
      else fwd inp b idxp k := rfl

/-- Forward state is unchanged at or beyond the recorded contributor count. -/
lemma fwd_stable_of_ge (idxp k : ℕ) (h : inp.n_contrib (rb_pix_id inp b idxp) ≤ k) :
    fwd inp b idxp (k + 1) = fwd inp b idxp k := by
  rw [fwd_succ, if_neg]
  intro hc
  omega

/-- Forward state is unchanged across a step that fails a visibility
cutoff. -/
lemma fwd_stable_of_skip (idxp k : ℕ) (h : ¬ft_contrib inp b k idxp) :
    fwd inp b idxp (k + 1) = fwd inp b idxp k := by
  rw [fwd_succ, if_neg]
  intro hc
  exact h hc.2

/-- For a valid lane, the per-lane registers agree with the tile-level splat
data at splat index splat_idx_in_tile. -/
lemma rb_lane_data_eq (j : ℕ) (hvs : rb_valid_splat inp b j) :
    rb_gaussian_idx inp b j = ft_g inp b (rb_splat_idx_in_tile inp b j) ∧
      rb_xy inp b j = ft_xy inp b (rb_splat_idx_in_tile inp b j) ∧
      rb_con_o inp b j = ft_con inp b (rb_splat_idx_in_tile inp b j) ∧
      (∀ ch : ℕ, rb_c inp b j ch = ft_c inp b (rb_splat_idx_in_tile inp b j) ch) ∧
      rb_invd inp b j = ft_invd inp b (rb_splat_idx_in_tile inp b j) := by
  refine ⟨?_, ?_, ?_, fun ch => ?_, ?_⟩ <;>
    simp [rb_gaussian_idx, rb_xy, rb_con_o, rb_c, rb_invd, hvs, ft_g, ft_xy, ft_con, ft_c,
      ft_invd, rb_splat_idx_global]

/-- For a valid lane, the recomputed footprint quantities agree with the
tile-level ones. -/
lemma rb_footprint_eq (j idxp : ℕ) (hvs : rb_valid_splat inp b j) :
    rb_d inp b j idxp = ft_d inp b (rb_splat_idx_in_tile inp b j) idxp ∧
      rb_power inp b j idxp = ft_power inp b (rb_splat_idx_in_tile inp b j) idxp ∧
      rb_G inp b j idxp = ft_G inp b (rb_splat_idx_in_tile inp b j) idxp ∧
      rb_alpha inp b j idxp = ft_alpha inp b (rb_splat_idx_in_tile inp b j) idxp := by
  obtain ⟨-, hxy, hcon, -, -⟩ := rb_lane_data_eq inp b j hvs
  have hd : rb_d inp b j idxp = ft_d inp b (rb_splat_idx_in_tile inp b j) idxp := by
    rw [rb_d, ft_d, hxy]
  have hp : rb_power inp b j idxp = ft_power inp b (rb_splat_idx_in_tile inp b j) idxp := by
    rw [rb_power, ft_power, hd, hcon]
  have hG : rb_G inp b j idxp = ft_G inp b (rb_splat_idx_in_tile inp b j) idxp := by
    rw [rb_G, ft_G, hp]
  exact ⟨hd, hp, hG, by rw [rb_alpha, ft_alpha, hG, hcon]⟩

/-- One-step unfolding of the sequential mid state. -/
lemma rb_mid_succ (idxp j : ℕ) :
    rb_mid inp b idxp (j + 1) =
      if rb_valid_splat inp b j ∧ idxp < rbBS inp ∧ rb_valid_pixel inp b idxp then
        (rb_work inp b j idxp (rb_mid inp b idxp j) 0).1
      else rb_mid inp b idxp j := rfl

/-- The mid state at lane 0 is the checkpoint load. -/
lemma rb_mid_zero (idxp : ℕ) : rb_mid inp b idxp 0 = rb_load inp b idxp := rfl

/-- The reconstructed running state a bucket should hold before its lane at
tile-level splat index k processes pixel idxp: the forward state after the
first k splats, with the final composited outputs subtracted from the
accumulators, plus the per-pixel constants. -/
def fwdSV (idxp k : ℕ) : SVars C :=
  { T := (fwd inp b idxp k).T
    last_contributor := (inp.n_contrib (rb_pix_id inp b idxp) : ℝ)
    T_final := (fwd inp b idxp (inp.n_contrib (rb_pix_id inp b idxp))).T
    ar := fun ch =>
      (fwd inp b idxp k).ar ch -
        (fwd inp b idxp (inp.n_contrib (rb_pix_id inp b idxp))).ar ch
    dL_dpixel := fun ch => inp.dL_dpixels ((ch : ℕ) * inp.H * inp.W + rb_pix_id inp b idxp)
    ard :=
      (fwd inp b idxp k).ard -
        (fwd inp b idxp (inp.n_contrib (rb_pix_id inp b idxp))).ard
    dL_invdepth := inp.dL_invdepths (rb_pix_id inp b idxp) }

/-- Phase B of the refinement proof: under checkpoint and final-output
consistency with the forward pass, the checkpoint load threaded through the
work blocks of lanes 0 to j-1 is exactly the reconstructed forward state
before splat s0 + j, where s0 = bucket_idx_in_tile * 32. -/
lemma rb_mid_eq_fwd (p : ℕ) (hpBS : p < rbBS inp) (hvp : rb_valid_pixel inp b p)
    (hT : inp.sampled_T (b * rbBS inp + p) = (fwd inp b p (rb_bit inp b * 32)).T)
    (har : ∀ ch : Fin C,
      inp.sampled_ar (b * rbBS inp * C + (ch : ℕ) * rbBS inp + p) =
        (fwd inp b p (rb_bit inp b * 32)).ar ch)
    (hard : inp.sampled_ard (b * rbBS inp + p) = (fwd inp b p (rb_bit inp b * 32)).ard)
    (hpc : ∀ ch : Fin C,
      inp.pixel_colors ((ch : ℕ) * inp.H * inp.W + rb_pix_id inp b p) =
        (fwd inp b p (inp.n_contrib (rb_pix_id inp b p))).ar ch)
    (hpd : inp.pixel_invDepths (rb_pix_id inp b p) =
      (fwd inp b p (inp.n_contrib (rb_pix_id inp b p))).ard)
    (hfT : inp.final_Ts (rb_pix_id inp b p) =
      (fwd inp b p (inp.n_contrib (rb_pix_id inp b p))).T)
    (hn : inp.n_contrib (rb_pix_id inp b p) ≤ rb_num_splats inp b) :
    ∀ j : ℕ, rb_mid inp b p j = fwdSV inp b p (rb_bit inp b * 32 + j) := by
  intro j
  induction j with
  | zero =>
    rw [rb_mid_zero]
    unfold rb_load fwdSV
    simp only [Nat.add_zero]
    ext <;> try rfl
    · exact hT
    · exact hfT
    · dsimp only
      rw [har _, hpc _]
      ring
    · dsimp only
      rw [hard, hpd]
      ring
  | succ j ih =>
    have hvp2 : (rb_pix inp b p).1 < inp.W ∧ (rb_pix inp b p).2 < inp.H := hvp
    have hkix : rb_bit inp b * 32 + (j + 1) = rb_splat_idx_in_tile inp b j + 1 := rfl
    rw [rb_mid_succ, hkix]
    by_cases hvs : rb_valid_splat inp b j
    · rw [if_pos ⟨hvs, hpBS, hvp⟩, ih,
        show rb_bit inp b * 32 + j = rb_splat_idx_in_tile inp b j from rfl]
      obtain ⟨hd, hpw, hG, hα⟩ := rb_footprint_eq inp b j p hvs
      obtain ⟨hg, hxy, hcon, hc, hinvd⟩ := rb_lane_data_eq inp b j hvs
      by_cases hge : inp.n_contrib (rb_pix_id inp b p) ≤ rb_splat_idx_in_tile inp b j
      · unfold rb_work
        rw [if_neg (not_not.mpr hvp2), if_pos (by
          unfold fwdSV
          exact_mod_cast Nat.cast_le.mpr hge)]
        unfold fwdSV
        rw [fwd_stable_of_ge inp b p _ hge]
      · have hlt : rb_splat_idx_in_tile inp b j < inp.n_contrib (rb_pix_id inp b p) := by
          omega
        unfold rb_work
        rw [if_neg (not_not.mpr hvp2), if_neg (by
          unfold fwdSV
          simp only [not_le]
          exact_mod_cast hlt)]
        by_cases hpw0 : rb_power inp b j p > 0
        · rw [if_pos hpw0]
          unfold fwdSV
          rw [fwd_stable_of_skip inp b p _ (fun hcontra => hcontra.1 (hpw ▸ hpw0))]
        · rw [if_neg hpw0]
          by_cases hαlt : rb_alpha inp b j p < 1 / 255
          · rw [if_pos hαlt]
            unfold fwdSV
            rw [fwd_stable_of_skip inp b p _ (fun hcontra => hcontra.2 (hα ▸ hαlt))]
          · rw [if_neg hαlt]
            have hcontrib : ft_contrib inp b (rb_splat_idx_in_tile inp b j) p :=
              ⟨hpw ▸ hpw0, hα ▸ hαlt⟩
            unfold fwdSV
            rw [fwd_succ, if_pos ⟨hlt, hcontrib⟩]
            ext <;> try rfl
            · dsimp only
              rw [hα]
            · dsimp only
              rw [hα, hc]
              ring
            · dsimp only
              rw [hα, hinvd]
              ring
    · rw [if_neg (fun hcontra => hvs hcontra.1), ih,
        show rb_bit inp b * 32 + j = rb_splat_idx_in_tile inp b j from rfl]
      have hge : inp.n_contrib (rb_pix_id inp b p) ≤ rb_splat_idx_in_tile inp b j := by
        unfold rb_valid_splat at hvs
        omega
      unfold fwdSV
      rw [fwd_stable_of_ge inp b p _ hge]

/-- Against the reconstructed forward state, the kernel's three-term alpha
gradient equals the reference alpha gradient: what the kernel obtains by
updating and negating its running accumulators is exactly what is
composited behind the sample. -/
lemma rb_ref_dL_dalpha_eq (p j : ℕ) (hvs : rb_valid_splat inp b j)
    (hlt : rb_splat_idx_in_tile inp b j < inp.n_contrib (rb_pix_id inp b p))
    (hcontrib : ft_contrib inp b (rb_splat_idx_in_tile inp b j) p) :
    rb_dL_dalpha inp b j p (fwdSV inp b p (rb_splat_idx_in_tile inp b j)) =
      ref_dL_dalpha inp b p (rb_splat_idx_in_tile inp b j) := by
  obtain ⟨-, -, -, hc, hinvd⟩ := rb_lane_data_eq inp b j hvs
  obtain ⟨-, -, -, hα⟩ := rb_footprint_eq inp b j p hvs
  have hstep := fwd_succ inp b p (rb_splat_idx_in_tile inp b j)
  rw [if_pos ⟨hlt, hcontrib⟩] at hstep
  unfold rb_dL_dalpha ref_dL_dalpha fwdSV
  dsimp only
  rw [hstep]
  dsimp only
  rw [hα, hinvd]
  congr 1
  congr 1
  · exact Finset.sum_congr rfl fun ch _ => by rw [hc]; ring
  · ring

/-- Phase C of the refinement proof: under the consistency hypotheses, the
accumulator increment a valid lane gains from a pixel equals the reference
per-pixel gradient of its splat. -/
lemma rb_pixContrib_eq_refAcc (p : ℕ) (hpBS : p < rbBS inp) (hvp : rb_valid_pixel inp b p)
    (hT : inp.sampled_T (b * rbBS inp + p) = (fwd inp b p (rb_bit inp b * 32)).T)
    (har : ∀ ch : Fin C,
      inp.sampled_ar (b * rbBS inp * C + (ch : ℕ) * rbBS inp + p) =
        (fwd inp b p (rb_bit inp b * 32)).ar ch)
    (hard : inp.sampled_ard (b * rbBS inp + p) = (fwd inp b p (rb_bit inp b * 32)).ard)
    (hpc : ∀ ch : Fin C,
      inp.pixel_colors ((ch : ℕ) * inp.H * inp.W + rb_pix_id inp b p) =
        (fwd inp b p (inp.n_contrib (rb_pix_id inp b p))).ar ch)
    (hpd : inp.pixel_invDepths (rb_pix_id inp b p) =
      (fwd inp b p (inp.n_contrib (rb_pix_id inp b p))).ard)
    (hfT : inp.final_Ts (rb_pix_id inp b p) =
      (fwd inp b p (inp.n_contrib (rb_pix_id inp b p))).T)
    (hn : inp.n_contrib (rb_pix_id inp b p) ≤ rb_num_splats inp b)
    (j : ℕ) (hvs : rb_valid_splat inp b j) :
    rb_pixContrib inp b j p = refAcc inp b p (rb_splat_idx_in_tile inp b j) := by
  have hvp2 : (rb_pix inp b p).1 < inp.W ∧ (rb_pix inp b p).2 < inp.H := hvp
  have hmid := rb_mid_eq_fwd inp b p hpBS hvp hT har hard hpc hpd hfT hn j
  rw [rb_pixContrib, if_pos ⟨hvs, hpBS, hvp⟩, hmid,
    show rb_bit inp b * 32 + j = rb_splat_idx_in_tile inp b j from rfl]
  obtain ⟨hd, hpw, hG, hα⟩ := rb_footprint_eq inp b j p hvs
  obtain ⟨hg, hxy, hcon, hc, hinvd⟩ := rb_lane_data_eq inp b j hvs
  by_cases hge : inp.n_contrib (rb_pix_id inp b p) ≤ rb_splat_idx_in_tile inp b j
  · unfold rb_work
    rw [if_neg (not_not.mpr hvp2), if_pos (by
      unfold fwdSV
      exact_mod_cast Nat.cast_le.mpr hge)]
    rw [refAcc, if_neg (fun hcontra => absurd hcontra.2.1 (not_lt.mpr hge))]
  · have hlt : rb_splat_idx_in_tile inp b j < inp.n_contrib (rb_pix_id inp b p) := by omega
    unfold rb_work
    rw [if_neg (not_not.mpr hvp2), if_neg (by
      unfold fwdSV
      simp only [not_le]
      exact_mod_cast hlt)]
    by_cases hpw0 : rb_power inp b j p > 0
    · rw [if_pos hpw0, refAcc, if_neg (fun hcontra => hcontra.2.2.1 (hpw ▸ hpw0))]
    · rw [if_neg hpw0]
      by_cases hαlt : rb_alpha inp b j p < 1 / 255
      · rw [if_pos hαlt, refAcc, if_neg (fun hcontra => hcontra.2.2.2 (hα ▸ hαlt))]
      · have hcontrib : ft_contrib inp b (rb_splat_idx_in_tile inp b j) p :=
          ⟨hpw ▸ hpw0, hα ▸ hαlt⟩
        have hDA := rb_ref_dL_dalpha_eq inp b p j hvs hlt hcontrib
        rw [if_neg hαlt, refAcc, if_pos ⟨hvp, hlt, hcontrib⟩]
        dsimp only
        rw [hDA]
        unfold fwdSV
        dsimp only
        rw [hα, hG, hd, hcon]
        ext <;>
          simp only [RAcc_zero_mean2D_x, RAcc_zero_mean2D_y, RAcc_zero_conic2D_x,
            RAcc_zero_conic2D_y, RAcc_zero_conic2D_w, RAcc_zero_opacity, RAcc_zero_colors,
            RAcc_zero_invdepths, zero_add]

/-- The state lane j holds in iteration i after the shuffle-up and the
checkpoint load, just before the work block. -/
def rb_shufload (i j : ℕ) (st : WarpSt C) : SVars C :=
  if j = 0 ∧ rb_valid_splat inp b 0 ∧ rb_valid_pixel inp b i ∧ i < rbBS inp then
    rb_load inp b i
  else if j = 0 then st.1 0 else st.1 (j - 1)

/-- The state half of one outer-loop iteration, lane by lane. -/
lemma rb_step_fst (i j : ℕ) (st : WarpSt C) :
    (rb_step inp b i st).1 j =
      if rb_valid_splat inp b j ∧ j ≤ i ∧ i - j < rbBS inp ∧ rb_valid_pixel inp b (i - j) then
        (rb_work inp b j (i - j) (rb_shufload inp b i j st) (st.2 j)).1
      else rb_shufload inp b i j st := rfl

/-- The accumulator half of one outer-loop iteration, lane by lane. -/
lemma rb_step_snd (i j : ℕ) (st : WarpSt C) :
    (rb_step inp b i st).2 j =
      if rb_valid_splat inp b j ∧ j ≤ i ∧ i - j < rbBS inp ∧ rb_valid_pixel inp b (i - j) then
        (rb_work inp b j (i - j) (rb_shufload inp b i j st) (st.2 j)).2
      else st.2 j := rfl

/-- The diagonal-wavefront invariant of the shuffle pipeline, by induction
over the outer loop: after i iterations, (a) a lane whose pixel index is in
range holds exactly the sequential mid state of that pixel, and (b) a lane's
accumulator block is the sum of its per-pixel increments over the pixels
whose diagonal has passed it. -/
lemma rb_run_inv (i : ℕ) :
    (∀ j p : ℕ, p + 1 + j = i → p < rbBS inp → rb_valid_pixel inp b p →
        rb_valid_splat inp b 0 → (rb_run inp b i).1 j = rb_mid inp b p (j + 1)) ∧
      ∀ j : ℕ, (rb_run inp b i).2 j =
        ∑ p in Finset.range (min (rbBS inp) (i - j)), rb_pixContrib inp b j p := by
  induction i with
  | zero =>
    refine ⟨fun j p hpi => absurd hpi (by omega), fun j => ?_⟩
    simp [rb_run, rb_init, Nat.zero_sub]
  | succ i ih =>
    have hrun : rb_run inp b (i + 1) = rb_step inp b i (rb_run inp b i) := rfl
    constructor
    · intro j p hpi hpBS hvp hvs0
      have hij : i - j = p := by omega
      have hji : j ≤ i := by omega
      have hload : rb_shufload inp b i j (rb_run inp b i) = rb_mid inp b p j := by
        unfold rb_shufload
        by_cases hj0 : j = 0
        · subst hj0
          have hip : i = p := by omega
          subst hip
          rw [if_pos ⟨rfl, hvs0, hvp, hpBS⟩, rb_mid_zero]
        · rw [if_neg (fun hc => hj0 hc.1), if_neg hj0]
          have hh := ih.1 (j - 1) p (by omega) hpBS hvp hvs0
          rw [hh, show j - 1 + 1 = j from by omega]
      rw [hrun, rb_step_fst, hij, hload, rb_mid_succ]
      by_cases hvs : rb_valid_splat inp b j
      · rw [if_pos ⟨hvs, hji, hpBS, hvp⟩, if_pos ⟨hvs, hpBS, hvp⟩]
        exact rb_work_fst_acc inp b j p _ _ _
      · rw [if_neg (fun hc => hvs hc.1), if_neg (fun hc => hvs hc.1)]
    · intro j
      rw [hrun, rb_step_snd]
      by_cases hcond : rb_valid_splat inp b j ∧ j ≤ i ∧ i - j < rbBS inp ∧
          rb_valid_pixel inp b (i - j)
      · obtain ⟨hvs, hji, hBS, hvpix⟩ := hcond
        rw [if_pos ⟨hvs, hji, hBS, hvpix⟩]
        have hload : rb_shufload inp b i j (rb_run inp b i) = rb_mid inp b (i - j) j := by
          unfold rb_shufload
          by_cases hj0 : j = 0
          · subst hj0
            simp only [Nat.sub_zero] at hvpix hBS ⊢
            rw [if_pos ⟨trivial, hvs, hvpix, hBS⟩, rb_mid_zero]
          · rw [if_neg (fun hc => hj0 hc.1), if_neg hj0]
            have hvs0 : rb_valid_splat inp b 0 := rb_valid_splat_mono inp b hvs (Nat.zero_le j)
            have hh := ih.1 (j - 1) (i - j) (by omega) hBS hvpix hvs0
            rw [hh, show j - 1 + 1 = j from by omega]
        rw [hload, rb_work_snd_acc, ih.2 j,
          show min (rbBS inp) (i + 1 - j) = (i - j) + 1 from by omega,
          show min (rbBS inp) (i - j) = i - j from by omega,
          Finset.sum_range_succ, rb_pixContrib, if_pos ⟨hvs, hBS, hvpix⟩]
      · rw [if_neg hcond, ih.2 j]
        by_cases hcase : j ≤ i ∧ i - j < rbBS inp
        · have hzero : rb_pixContrib inp b j (i - j) = 0 := by
            rw [rb_pixContrib, if_neg]
            intro hc
            exact hcond ⟨hc.1, hcase.1, hcase.2, hc.2.2⟩
          rw [show min (rbBS inp) (i + 1 - j) = (i - j) + 1 from by omega,
            show min (rbBS inp) (i - j) = i - j from by omega,
            Finset.sum_range_succ, hzero, add_zero]
        · rw [show min (rbBS inp) (i - j) = min (rbBS inp) (i + 1 - j) from by omega]

/-- After the full outer loop of BLOCK_SIZE + 31 iterations, every warp
lane's accumulator block is the sum of its per-pixel increments over all
pixels of the tile. -/
lemma rb_finalAcc_eq_sum (j : ℕ) (hj : j ≤ 31) :
    rb_finalAcc inp b j = ∑ p in Finset.range (rbBS inp), rb_pixContrib inp b j p := by
  rw [rb_finalAcc, (rb_run_inv inp b (rbBS inp + 31)).2 j,
    show min (rbBS inp) (rbBS inp + 31 - j) = rbBS inp from by omega]

end RenderEquiv

/-- C3: for every bucket whose first primitive index within its tile (its
bucket index in tile times 32) exceeds the tile's recorded maximum
contributor count, TileRenderBackward is a full no-op: the warp returns
before doing any work, so no atomic addition at all is performed and every
primitive of the bucket contributes exactly zero to every gradient buffer. -/
theorem bucket_beyond_max_contrib_is_noop (C : ℕ) (inp : RenderIn C) (b : ℕ)
    (h : inp.max_contrib (rb_tile inp b) < rb_bit inp b * 32) :
    rb_updates inp b = [] := by
  have he : rb_early_exit inp b := le_of_lt h
  unfold rb_updates
  rw [if_neg (fun hc => hc.2 he)]

/-- A tiny concrete render input: one 1 by 1 tile, one splat, two buckets. -/
def exInputA : RenderIn 1 where
  W := 1
  H := 1
  BX := 1
  BY := 1
  B := 2
  ranges := fun _ => (0, 1)
  point_list := fun _ => 0
  per_tile_bucket_offset := fun _ => 1
  bucket_to_tile := fun _ => 0
  sampled_T := fun _ => 1
  sampled_ar := fun _ => 0
  sampled_ard := fun _ => 0
  bg_color := fun _ => 0
  points_xy_image := fun _ => ⟨0, 0⟩
  conic_opacity := fun _ => ⟨0, 0, 0, 0⟩
  colors := fun _ => 1
  depths := fun _ => 1
  final_Ts := fun _ => 1
  n_contrib := fun _ => 0
  max_contrib := fun _ => 5
  pixel_colors := fun _ => 0
  pixel_invDepths := fun _ => 0
  dL_dpixels := fun _ => 0
  dL_invdepths := fun _ => 0

/-- Witness for C3: bucket 1 of the example starts at splat index 32, beyond
the tile's max contributor count 5, and the theorem yields the empty update
list. -/
theorem bucket_beyond_max_contrib_is_noop_witness :
    exInputA.max_contrib (rb_tile exInputA 1) < rb_bit exInputA 1 * 32 ∧
      rb_updates exInputA 1 = [] :=
  ⟨by norm_num [rb_tile, rb_bit, rb_bbm, exInputA],
    bucket_beyond_max_contrib_is_noop 1 exInputA 1
      (by norm_num [rb_tile, rb_bit, rb_bbm, exInputA])⟩

/-- C10: every atomic addition TileRenderBackward makes into the third and
fourth mean2D gradient channels adds the absolute value of the same warp's
accumulated signed first and second channel sums, so each auxiliary channel
receives only non-negative additions holding the magnitude of the bucket's
signed per-axis sum. -/
theorem aux_densification_channels_are_magnitudes (C : ℕ) (inp : RenderIn C) (b : ℕ) :
    (rb_updates inp b).Forall fun u =>
      u.dmean2D_z = |u.dmean2D_x| ∧ u.dmean2D_w = |u.dmean2D_y| ∧
        0 ≤ u.dmean2D_z ∧ 0 ≤ u.dmean2D_w := by
  rw [List.forall_iff_forall_mem]
  intro u hu
  unfold rb_updates at hu
  by_cases hb : b < inp.B ∧ ¬rb_early_exit inp b
  · rw [if_pos hb, List.mem_filterMap] at hu
    obtain ⟨j, _, hj⟩ := hu
    by_cases hv : rb_valid_splat inp b j
    · rw [if_pos hv, Option.some_inj] at hj
      subst hj
      exact ⟨rfl, rfl, abs_nonneg _, abs_nonneg _⟩
    · rw [if_neg hv] at hj
      cases hj
  · rw [if_neg hb] at hu
    cases hu

/-- A concrete render input with a one-pixel-wide, two-pixel-tall tile and
one splat with zero conic: pixel 0 records zero contributors, pixel 1
records one. -/
def exInputB : RenderIn 1 where
  W := 1
  H := 2
  BX := 1
  BY := 2
  B := 1
  ranges := fun _ => (0, 1)
  point_list := fun _ => 0
  per_tile_bucket_offset := fun _ => 1
  bucket_to_tile := fun _ => 0
  sampled_T := fun _ => 1
  sampled_ar := fun _ => 0
  sampled_ard := fun _ => 0
  bg_color := fun _ => 0
  points_xy_image := fun _ => ⟨0, 0⟩
  conic_opacity := fun _ => ⟨0, 0, 0, 0.5⟩
  colors := fun _ => 1
  depths := fun _ => 1
  final_Ts := fun _ => 1
  n_contrib := fun pid => pid
  max_contrib := fun _ => 1
  pixel_colors := fun _ => 0
  pixel_invDepths := fun _ => 0
  dL_dpixels := fun _ => 1
  dL_invdepths := fun _ => 0

/-- C4: a primitive whose index within the tile's sorted range is at or
beyond a pixel's recorded last-contributor count adds nothing to any of its
per-lane accumulators at that pixel and leaves the compositing state
untouched; the same primitive may still contribute nonzero gradient at
another pixel of the same tile, as the concrete instance shows (pixel 0 of
the example records zero contributors and the work block is the identity
there, pixel 1 records one contributor and the color accumulator gains a
nonzero increment). -/
theorem beyond_last_contributor_contributes_nothing :
    (∀ (C : ℕ) (inp : RenderIn C) (b j idxp : ℕ) (sv : SVars C) (acc : RAcc C),
        ((rb_splat_idx_in_tile inp b j : ℕ) : ℝ) ≥ sv.last_contributor →
          rb_work inp b j idxp sv acc = (sv, acc)) ∧
      rb_work exInputB 0 0 0 (rb_load exInputB 0 0) 0 = (rb_load exInputB 0 0, 0) ∧
      (rb_work exInputB 0 0 1 (rb_load exInputB 0 1) 0).2.colors 0 = 1 / 2 ∧
      ((1 : ℝ) / 2) ≠ 0 := by
  have huniv : ∀ (C : ℕ) (inp : RenderIn C) (b j idxp : ℕ) (sv : SVars C) (acc : RAcc C),
      ((rb_splat_idx_in_tile inp b j : ℕ) : ℝ) ≥ sv.last_contributor →
        rb_work inp b j idxp sv acc = (sv, acc) := by
    intro C inp b j idxp sv acc h
    unfold rb_work
    by_cases h1 : ¬((rb_pix inp b idxp).1 < inp.W ∧ (rb_pix inp b idxp).2 < inp.H)
    · rw [if_pos h1]
    · rw [if_neg h1, if_pos h]
  refine ⟨huniv, ?_, ?_, by norm_num⟩
  · apply huniv
    norm_num [rb_load, rb_splat_idx_in_tile, rb_bit, rb_bbm, rb_tile, rb_pix_id, rb_pix,
      rb_pix_min, rb_horizontal_blocks, exInputB]
  · norm_num [rb_work, rb_load, rb_alpha, rb_G, rb_power, rb_d, rb_con_o, rb_c,
      rb_gaussian_idx, rb_splat_idx_in_tile, rb_splat_idx_global, rb_bit, rb_bbm, rb_tile,
      rb_range, rb_num_splats, rb_valid_splat, rb_pix_id, rb_pix, rb_pix_min,
      rb_horizontal_blocks, rbBS, Real.exp_zero, exInputB]

/-- A concrete render input whose single splat has an indefinite conic
(conic x entry -2) and sits one pixel away from pixel (0,0), giving a
positive Gaussian exponent there. -/
def exInputC : RenderIn 1 where
  W := 1
  H := 1
  BX := 1
  BY := 1
  B := 1
  ranges := fun _ => (0, 1)
  point_list := fun _ => 0
  per_tile_bucket_offset := fun _ => 1
  bucket_to_tile := fun _ => 0
  sampled_T := fun _ => 1
  sampled_ar := fun _ => 0
  sampled_ard := fun _ => 0
  bg_color := fun _ => 0
  points_xy_image := fun _ => ⟨1, 0⟩
  conic_opacity := fun _ => ⟨-2, 0, 0, 0.5⟩
  colors := fun _ => 1
  depths := fun _ => 1
  final_Ts := fun _ => 1
  n_contrib := fun _ => 1
  max_contrib := fun _ => 1
  pixel_colors := fun _ => 0
  pixel_invDepths := fun _ => 0
  dL_dpixels := fun _ => 1
  dL_invdepths := fun _ => 0

/-- Counterexample for C2: a sample at a valid pixel, before the pixel's
last contributor, whose alpha = min(0.99, opacity * exp(power)) = 0.99 is
far above the 1/255 cutoff, yet the work block skips it entirely (the state
and every accumulator are unchanged) because its exponent is positive,
while the claim says every such contribution is composited with weight
alpha * T = 0.99, a nonzero color increment here. -/
theorem per_step_rule_positive_power_cex :
    ((rb_pix exInputC 0 0).1 < exInputC.W ∧ (rb_pix exInputC 0 0).2 < exInputC.H) ∧
      ((rb_splat_idx_in_tile exInputC 0 0 : ℕ) : ℝ) <
        (rb_load exInputC 0 0).last_contributor ∧
      ¬rb_alpha exInputC 0 0 0 < 1 / 255 ∧
      rb_work exInputC 0 0 0 (rb_load exInputC 0 0) 0 = (rb_load exInputC 0 0, 0) ∧
      rb_alpha exInputC 0 0 0 * (rb_load exInputC 0 0).T *
          (rb_load exInputC 0 0).dL_dpixel 0 ≠ 0 := by
  have hvs : rb_valid_splat exInputC 0 0 := by
    norm_num [rb_valid_splat, rb_splat_idx_in_tile, rb_bit, rb_bbm, rb_tile,
      rb_num_splats, rb_range, exInputC]
  have hcon : rb_con_o exInputC 0 0 = ⟨-2, 0, 0, 0.5⟩ := by
    rw [rb_con_o, if_pos hvs]
    norm_num [rb_gaussian_idx, hvs, exInputC]
  have hxy : rb_xy exInputC 0 0 = ⟨1, 0⟩ := by
    rw [rb_xy, if_pos hvs]
    norm_num [rb_gaussian_idx, hvs, exInputC]
  have hpix0 : rb_pix exInputC 0 0 = (0, 0) := by
    norm_num [rb_pix, rb_pix_min, rb_tile, rb_horizontal_blocks, exInputC]
  have hpow : rb_power exInputC 0 0 0 = 1 := by
    rw [rb_power, rb_d, hcon, hxy, hpix0]
    norm_num
  have hexp : (1.98 : ℝ) ≤ 0.5 * Real.exp (rb_power exInputC 0 0 0) * 2 := by
    rw [hpow]
    have h2 : (2 : ℝ) ≤ Real.exp 1 := by
      have := Real.add_one_le_exp (1 : ℝ)
      linarith
    linarith
  have halpha : rb_alpha exInputC 0 0 0 = 0.99 := by
    rw [rb_alpha, rb_G, hcon]
    refine min_eq_left ?_
    have h2 : (2 : ℝ) ≤ Real.exp (rb_power exInputC 0 0 0) := by
      rw [hpow]
      have := Real.add_one_le_exp (1 : ℝ)
      linarith
    linarith
  refine ⟨?_, ?_, ?_, ?_, ?_⟩
  · norm_num [rb_pix, rb_pix_min, rb_tile, rb_horizontal_blocks, exInputC]
  · norm_num [rb_load, rb_splat_idx_in_tile, rb_bit, rb_bbm, rb_tile, rb_pix_id, rb_pix,
      rb_pix_min, rb_horizontal_blocks, exInputC]
  · rw [halpha]
    norm_num
  · unfold rb_work
    rw [if_neg, if_neg, if_pos]
    · rw [hpow]
      norm_num
    · norm_num [rb_load, rb_splat_idx_in_tile, rb_bit, rb_bbm, rb_tile, rb_pix_id, rb_pix,
        rb_pix_min, rb_horizontal_blocks, exInputC]
    · norm_num [rb_pix, rb_pix_min, rb_tile, rb_horizontal_blocks, exInputC]
  · rw [halpha]
    norm_num [rb_load, rbBS, exInputC]

/-- C2 amended: for a valid pixel whose recorded last contributor lies
beyond the sample, and whose Gaussian exponent is non-positive (the
additional skip the source applies before evaluating the footprint, in the
claim's words a contribution whose footprint would exceed one), the per-step
rule holds exactly: the footprint is G = exp(power), alpha =
min(0.99, opacity * G), a sample with alpha below 1/255 is skipped, and
every other sample is composited with weight = alpha times the
transmittance before the sample, into the color and inverse-depth
accumulators, the running color and depth state, and the transmittance
update. -/
theorem per_step_numeric_rule (C : ℕ) (inp : RenderIn C) (b j idxp : ℕ) (sv : SVars C)
    (acc : RAcc C)
    (hpx : (rb_pix inp b idxp).1 < inp.W ∧ (rb_pix inp b idxp).2 < inp.H)
    (hlc : ((rb_splat_idx_in_tile inp b j : ℕ) : ℝ) < sv.last_contributor)
    (hpow : rb_power inp b j idxp ≤ 0) :
    rb_G inp b j idxp = Real.exp (rb_power inp b j idxp) ∧
      rb_alpha inp b j idxp =
        min 0.99 ((rb_con_o inp b j).w * Real.exp (rb_power inp b j idxp)) ∧
      (rb_alpha inp b j idxp < 1 / 255 →
        rb_work inp b j idxp sv acc = (sv, acc)) ∧
      (¬rb_alpha inp b j idxp < 1 / 255 →
        (rb_work inp b j idxp sv acc).2.colors =
            (fun ch => acc.colors ch + rb_alpha inp b j idxp * sv.T * sv.dL_dpixel ch) ∧
          (rb_work inp b j idxp sv acc).2.invdepths =
            acc.invdepths + rb_alpha inp b j idxp * sv.T * sv.dL_invdepth ∧
          (rb_work inp b j idxp sv acc).1.ar =
            (fun ch => sv.ar ch + rb_alpha inp b j idxp * sv.T * rb_c inp b j ch) ∧
          (rb_work inp b j idxp sv acc).1.ard =
            sv.ard + rb_alpha inp b j idxp * sv.T * rb_invd inp b j ∧
          (rb_work inp b j idxp sv acc).1.T = sv.T * (1 - rb_alpha inp b j idxp)) := by
  refine ⟨rfl, rfl, fun hskip => ?_, fun hgo => ?_⟩
  · unfold rb_work
    rw [if_neg (not_not.mpr hpx), if_neg (not_le.mpr hlc), if_neg (not_lt.mpr hpow),
      if_pos hskip]
  · unfold rb_work
    rw [if_neg (not_not.mpr hpx), if_neg (not_le.mpr hlc), if_neg (not_lt.mpr hpow),
      if_neg hgo]
    refine ⟨funext fun ch => ?_, ?_, funext fun ch => ?_, ?_, ?_⟩ <;>
      · dsimp only
        try ring

/-- Witness for C2: the zero-conic sample of the two-pixel example at
pixel 1, where the exponent is zero and alpha is one half. -/
theorem per_step_numeric_rule_witness :
    ((rb_pix exInputB 0 1).1 < exInputB.W ∧ (rb_pix exInputB 0 1).2 < exInputB.H) ∧
      ((rb_splat_idx_in_tile exInputB 0 0 : ℕ) : ℝ) <
        (rb_load exInputB 0 1).last_contributor ∧
      rb_power exInputB 0 0 1 ≤ 0 ∧
      (rb_G exInputB 0 0 1 = Real.exp (rb_power exInputB 0 0 1) ∧
        rb_alpha exInputB 0 0 1 =
          min 0.99 ((rb_con_o exInputB 0 0).w * Real.exp (rb_power exInputB 0 0 1)) ∧
        (rb_alpha exInputB 0 0 1 < 1 / 255 →
          rb_work exInputB 0 0 1 (rb_load exInputB 0 1) 0 = (rb_load exInputB 0 1, 0)) ∧
        (¬rb_alpha exInputB 0 0 1 < 1 / 255 →
          (rb_work exInputB 0 0 1 (rb_load exInputB 0 1) 0).2.colors =
              (fun ch => (0 : RAcc 1).colors ch +
                rb_alpha exInputB 0 0 1 * (rb_load exInputB 0 1).T *
                  (rb_load exInputB 0 1).dL_dpixel ch) ∧
            (rb_work exInputB 0 0 1 (rb_load exInputB 0 1) 0).2.invdepths =
              (0 : RAcc 1).invdepths +
                rb_alpha exInputB 0 0 1 * (rb_load exInputB 0 1).T *
                  (rb_load exInputB 0 1).dL_invdepth ∧
            (rb_work exInputB 0 0 1 (rb_load exInputB 0 1) 0).1.ar =
              (fun ch => (rb_load exInputB 0 1).ar ch +
                rb_alpha exInputB 0 0 1 * (rb_load exInputB 0 1).T * rb_c exInputB 0 0 ch) ∧
            (rb_work exInputB 0 0 1 (rb_load exInputB 0 1) 0).1.ard =
              (rb_load exInputB 0 1).ard +
                rb_alpha exInputB 0 0 1 * (rb_load exInputB 0 1).T * rb_invd exInputB 0 0 ∧
            (rb_work exInputB 0 0 1 (rb_load exInputB 0 1) 0).1.T =
              (rb_load exInputB 0 1).T * (1 - rb_alpha exInputB 0 0 1))) :=
  ⟨by norm_num [rb_pix, rb_pix_min, rb_tile, rb_horizontal_blocks, exInputB],
    by norm_num [rb_load, rb_splat_idx_in_tile, rb_bit, rb_bbm, rb_tile, rb_pix_id,
      rb_pix, rb_pix_min, rb_horizontal_blocks, exInputB],
    by norm_num [rb_power, rb_d, rb_con_o, rb_gaussian_idx, rb_valid_splat,
      rb_splat_idx_in_tile, rb_bit, rb_bbm, rb_tile, rb_num_splats, rb_range, rb_pix,
      rb_pix_min, rb_horizontal_blocks, exInputB],
    per_step_numeric_rule 1 exInputB 0 0 1 (rb_load exInputB 0 1) 0
      (by norm_num [rb_pix, rb_pix_min, rb_tile, rb_horizontal_blocks, exInputB])
      (by norm_num [rb_load, rb_splat_idx_in_tile, rb_bit, rb_bbm, rb_tile, rb_pix_id,
        rb_pix, rb_pix_min, rb_horizontal_blocks, exInputB])
      (by norm_num [rb_power, rb_d, rb_con_o, rb_gaussian_idx, rb_valid_splat,
        rb_splat_idx_in_tile, rb_bit, rb_bbm, rb_tile, rb_num_splats, rb_range, rb_pix,
        rb_pix_min, rb_horizontal_blocks, exInputB])⟩

/-- Stated from the spec for the refinement side of C9: the partial
derivative of the quaternion-to-rotation map in the r direction. -/
def quatR_dr (x y z : ℝ) : Mat3 :=
  mat3 0 (-(2 * z)) (2 * y) (2 * z) 0 (-(2 * x)) (-(2 * y)) (2 * x) 0

/-- Stated from the spec: the partial derivative of the quaternion-to-rotation
map in the x direction. -/
def quatR_dx (r x y z : ℝ) : Mat3 :=
  mat3 0 (2 * y) (2 * z) (2 * y) (-(4 * x)) (-(2 * r)) (2 * z) (2 * r) (-(4 * x))

/-- Stated from the spec: the partial derivative of the quaternion-to-rotation
map in the y direction. -/
def quatR_dy (r x y z : ℝ) : Mat3 :=
  mat3 (-(4 * y)) (2 * x) (2 * r) (2 * x) 0 (2 * z) (-(2 * r)) (2 * z) (-(4 * y))

/-- Stated from the spec: the partial derivative of the quaternion-to-rotation
map in the z direction. -/
def quatR_dz (r x y z : ℝ) : Mat3 :=
  mat3 (-(4 * z)) (-(2 * r)) (2 * x) (2 * r) (-(4 * z)) (2 * y) (2 * x) (2 * y) 0

/-- Stated from the spec: the analytic Jacobian of the quaternion-to-rotation
map applied to a matrix-valued upstream gradient G, one Frobenius inner
product per quaternion component, with no renormalization or tangent-space
projection anywhere. -/
def quatJacApply (r x y z : ℝ) (G : Mat3) : F4 :=
  { x := ∑ c : Fin 3, ∑ rr : Fin 3, quatR_dr x y z c rr * G c rr
    y := ∑ c : Fin 3, ∑ rr : Fin 3, quatR_dx r x y z c rr * G c rr
    z := ∑ c : Fin 3, ∑ rr : Fin 3, quatR_dy r x y z c rr * G c rr
    w := ∑ c : Fin 3, ∑ rr : Fin 3, quatR_dz r x y z c rr * G c rr }

/-- The scale-weighted M gradient: the upstream gradient with respect to the
rotation entries, dL_dR[c][r] = s_r * dL_dM[c][r], since M = S R scales row
r of R by s_r. -/
def cov3d_dL_dR (idx : ℕ) (scale : F3) (mod : ℝ) (rot : F4) (dL_dcov3Ds : ℕ → ℝ) : Mat3 :=
  fun c r =>
    v3 (cov3d_s scale mod).x (cov3d_s scale mod).y (cov3d_s scale mod).z r *
      cov3d_dL_dM idx scale mod rot dL_dcov3Ds c r

/-- Derivative of a real quadratic polynomial, the shape of every entry of
the quaternion-to-rotation map in one quaternion component. -/
lemma hasDerivAt_poly2 (a b c p : ℝ) :
    HasDerivAt (fun t : ℝ => a + b * t + c * (t * t)) (b + 2 * c * p) p := by
  have h1 : HasDerivAt (fun t : ℝ => t) 1 p := hasDerivAt_id p
  have h2 : HasDerivAt (fun t : ℝ => b * t) b p := by simpa using h1.const_mul b
  have h3 : HasDerivAt (fun t : ℝ => t * t) (p + p) p := by simpa using h1.mul h1
  have h4 : HasDerivAt (fun t : ℝ => c * (t * t)) (c * (p + p)) p := h3.const_mul c
  have h5 := (h2.const_add a).add h4
  convert h5 using 1
  ring

/-- Transport of a derivative along a pointwise function identity and a value
identity. -/
lemma hda_of_eq {f g : ℝ → ℝ} {d e p : ℝ} (h : HasDerivAt f d p) (hfg : ∀ t, g t = f t)
    (hde : e = d) : HasDerivAt g e p := by
  subst hde
  exact h.congr_of_eventuallyEq (Filter.Eventually.of_forall hfg)

/-- quatR_dr is the entry-wise derivative of the rotation in the first
quaternion component. -/
lemma quatR_hasDerivAt_r (x y z p : ℝ) (c rr : Fin 3) :
    HasDerivAt (fun t => quatR t x y z c rr) (quatR_dr x y z c rr) p := by
  fin_cases c <;> fin_cases rr <;> simp [quatR, quatR_dr, mat3, Fin.ext_iff]
  · exact hda_of_eq (hasDerivAt_poly2 (1 - 2 * (y * y + z * z)) 0 0 p) (fun t => by ring)
      (by ring)
  · exact hda_of_eq (hasDerivAt_poly2 (2 * (x * y)) (-(2 * z)) 0 p) (fun t => by ring) (by ring)
  · exact hda_of_eq (hasDerivAt_poly2 (2 * (x * z)) (2 * y) 0 p) (fun t => by ring) (by ring)
  · exact hda_of_eq (hasDerivAt_poly2 (2 * (x * y)) (2 * z) 0 p) (fun t => by ring) (by ring)
  · exact hda_of_eq (hasDerivAt_poly2 (1 - 2 * (x * x + z * z)) 0 0 p) (fun t => by ring)
      (by ring)
  · exact hda_of_eq (hasDerivAt_poly2 (2 * (y * z)) (-(2 * x)) 0 p) (fun t => by ring) (by ring)
  · exact hda_of_eq (hasDerivAt_poly2 (2 * (x * z)) (-(2 * y)) 0 p) (fun t => by ring) (by ring)
  · exact hda_of_eq (hasDerivAt_poly2 (2 * (y * z)) (2 * x) 0 p) (fun t => by ring) (by ring)
  · exact hda_of_eq (hasDerivAt_poly2 (1 - 2 * (x * x + y * y)) 0 0 p) (fun t => by ring)
      (by ring)

/-- quatR_dx is the entry-wise derivative of the rotation in the second
quaternion component. -/
lemma quatR_hasDerivAt_x (r y z p : ℝ) (c rr : Fin 3) :
    HasDerivAt (fun t => quatR r t y z c rr) (quatR_dx r p y z c rr) p := by
  fin_cases c <;> fin_cases rr <;> simp [quatR, quatR_dx, mat3, Fin.ext_iff]
  · exact hda_of_eq (hasDerivAt_poly2 (1 - 2 * (y * y + z * z)) 0 0 p) (fun t => by ring)
      (by ring)
  · exact hda_of_eq (hasDerivAt_poly2 (-(2 * (r * z))) (2 * y) 0 p) (fun t => by ring) (by ring)
  · exact hda_of_eq (hasDerivAt_poly2 (2 * (r * y)) (2 * z) 0 p) (fun t => by ring) (by ring)
  · exact hda_of_eq (hasDerivAt_poly2 (2 * (r * z)) (2 * y) 0 p) (fun t => by ring) (by ring)
  · exact hda_of_eq (hasDerivAt_poly2 (1 - 2 * (z * z)) 0 (-2) p) (fun t => by ring) (by ring)
  · exact hda_of_eq (hasDerivAt_poly2 (2 * (y * z)) (-(2 * r)) 0 p) (fun t => by ring) (by ring)
  · exact hda_of_eq (hasDerivAt_poly2 (-(2 * (r * y))) (2 * z) 0 p) (fun t => by ring) (by ring)
  · exact hda_of_eq (hasDerivAt_poly2 (2 * (y * z)) (2 * r) 0 p) (fun t => by ring) (by ring)
  · exact hda_of_eq (hasDerivAt_poly2 (1 - 2 * (y * y)) 0 (-2) p) (fun t => by ring) (by ring)

/-- quatR_dy is the entry-wise derivative of the rotation in the third
quaternion component. -/
lemma quatR_hasDerivAt_y (r x z p : ℝ) (c rr : Fin 3) :
    HasDerivAt (fun t => quatR r x t z c rr) (quatR_dy r x p z c rr) p := by
  fin_cases c <;> fin_cases rr <;> simp [quatR, quatR_dy, mat3, Fin.ext_iff]
  · exact hda_of_eq (hasDerivAt_poly2 (1 - 2 * (z * z)) 0 (-2) p) (fun t => by ring) (by ring)
  · exact hda_of_eq (hasDerivAt_poly2 (-(2 * (r * z))) (2 * x) 0 p) (fun t => by ring) (by ring)
  · exact hda_of_eq (hasDerivAt_poly2 (2 * (x * z)) (2 * r) 0 p) (fun t => by ring) (by ring)
  · exact hda_of_eq (hasDerivAt_poly2 (2 * (r * z)) (2 * x) 0 p) (fun t => by ring) (by ring)
  · exact hda_of_eq (hasDerivAt_poly2 (1 - 2 * (x * x + z * z)) 0 0 p) (fun t => by ring)
      (by ring)
  · exact hda_of_eq (hasDerivAt_poly2 (-(2 * (r * x))) (2 * z) 0 p) (fun t => by ring) (by ring)
  · exact hda_of_eq (hasDerivAt_poly2 (2 * (x * z)) (-(2 * r)) 0 p) (fun t => by ring) (by ring)
  · exact hda_of_eq (hasDerivAt_poly2 (2 * (r * x)) (2 * z) 0 p) (fun t => by ring) (by ring)
  · exact hda_of_eq (hasDerivAt_poly2 (1 - 2 * (x * x)) 0 (-2) p) (fun t => by ring) (by ring)

/-- quatR_dz is the entry-wise derivative of the rotation in the fourth
quaternion component. -/
lemma quatR_hasDerivAt_z (r x y p : ℝ) (c rr : Fin 3) :
    HasDerivAt (fun t => quatR r x y t c rr) (quatR_dz r x y p c rr) p := by
  fin_cases c <;> fin_cases rr <;> simp [quatR, quatR_dz, mat3, Fin.ext_iff]
  · exact hda_of_eq (hasDerivAt_poly2 (1 - 2 * (y * y)) 0 (-2) p) (fun t => by ring) (by ring)
  · exact hda_of_eq (hasDerivAt_poly2 (2 * (x * y)) (-(2 * r)) 0 p) (fun t => by ring) (by ring)
  · exact hda_of_eq (hasDerivAt_poly2 (2 * (r * y)) (2 * x) 0 p) (fun t => by ring) (by ring)
  · exact hda_of_eq (hasDerivAt_poly2 (2 * (x * y)) (2 * r) 0 p) (fun t => by ring) (by ring)
  · exact hda_of_eq (hasDerivAt_poly2 (1 - 2 * (x * x)) 0 (-2) p) (fun t => by ring) (by ring)
  · exact hda_of_eq (hasDerivAt_poly2 (-(2 * (r * x))) (2 * y) 0 p) (fun t => by ring) (by ring)
  · exact hda_of_eq (hasDerivAt_poly2 (-(2 * (r * y))) (2 * x) 0 p) (fun t => by ring) (by ring)
  · exact hda_of_eq (hasDerivAt_poly2 (2 * (r * x)) (2 * y) 0 p) (fun t => by ring) (by ring)
  · exact hda_of_eq (hasDerivAt_poly2 (1 - 2 * (x * x + y * y)) 0 0 p) (fun t => by ring)
      (by ring)

set_option maxHeartbeats 2000000 in
/-- The stored quaternion gradient equals the Jacobian application, with no
renormalization. -/
lemma cov3d_dL_drot_eq_jac (idx : ℕ) (scale : F3) (mod : ℝ) (rot : F4)
    (dL_dcov3Ds : ℕ → ℝ) :
    cov3d_dL_drot idx scale mod rot dL_dcov3Ds =
      quatJacApply rot.x rot.y rot.z rot.w (cov3d_dL_dR idx scale mod rot dL_dcov3Ds) := by
  have hM : ∀ c r : Fin 3,
      cov3d_dL_dM idx scale mod rot dL_dcov3Ds c r =
        2 * ∑ k : Fin 3, cov3d_M scale mod rot k r * cov3d_dL_dSigma idx dL_dcov3Ds c k :=
    fun c r => by rw [cov3d_dL_dM, mulM]
  ext <;>
    · simp only [cov3d_dL_drot, quatJacApply, quatR_dr, quatR_dx, quatR_dy, quatR_dz,
        cov3d_dL_dR, cov3d_dL_dMts, trM, hM, cov3d_M, cov3d_S, cov3d_R, quatR, mulM,
        mat3, v3, cov3d_dL_dSigma, cov3d_s, Fin.sum_univ_three]
      norm_num [Fin.ext_iff]
      ring

/-- C9: for every primitive processed by Covariance3DBackward, the
quaternion gradient written to the rotation-gradient buffer equals the
analytic Jacobian of the quaternion-to-rotation map (whose entry-wise
derivatives in each of the four quaternion components are certified by the
HasDerivAt conjuncts) applied to the scale-weighted M gradient, with no
renormalization or projection onto the unit-quaternion tangent space. -/
theorem cov3d_quaternion_gradient_raw_jacobian (idx : ℕ) (scale : F3) (mod : ℝ) (rot : F4)
    (dL_dcov3Ds : ℕ → ℝ) (r x y z p : ℝ) (c rr : Fin 3) :
    HasDerivAt (fun t => quatR t x y z c rr) (quatR_dr x y z c rr) p ∧
      HasDerivAt (fun t => quatR r t y z c rr) (quatR_dx r p y z c rr) p ∧
      HasDerivAt (fun t => quatR r x t z c rr) (quatR_dy r x p z c rr) p ∧
      HasDerivAt (fun t => quatR r x y t c rr) (quatR_dz r x y p c rr) p ∧
      cov3d_dL_drot idx scale mod rot dL_dcov3Ds =
        quatJacApply rot.x rot.y rot.z rot.w
          (cov3d_dL_dR idx scale mod rot dL_dcov3Ds) :=
  ⟨quatR_hasDerivAt_r x y z p c rr, quatR_hasDerivAt_x r y z p c rr,
    quatR_hasDerivAt_y r x z p c rr, quatR_hasDerivAt_z r x y p c rr,
    cov3d_dL_drot_eq_jac idx scale mod rot dL_dcov3Ds⟩

/-- C7: for every non-culled primitive, the 3D-mean gradient cell is written
by overwrite by CovarianceBackward (computeCov2DCUDA), then only added to by
PreprocessBackward and, when colors are SH-derived, by
SphericalHarmonicsBackward; the final cell is the sum of these components
and is independent of the buffer's prior contents. -/
theorem mean_gradient_overwrite_then_accumulate (h : HostPreIn) (idx : ℕ) (prior prior' : F3)
    (h1 : idx < h.P) (h2 : h.radii idx > 0) :
    backward_preprocess_means_cell h idx prior =
      cov2d_dL_dmean (hostCov2DIn h) idx + pre_dL_dmean (hostPreIn h) idx +
        (match h.shs_opt with
          | some shs => sh_dL_dmean_inc (pre_shIn (hostPreIn h) idx shs)
          | none => 0) ∧
      backward_preprocess_means_cell h idx prior =
        backward_preprocess_means_cell h idx prior' := by
  have hguard : idx < h.P ∧ h.radii idx > 0 := ⟨h1, h2⟩
  constructor
  · cases hs : h.shs_opt with
    | none =>
      simp only [backward_preprocess_means_cell, preprocess_means_cell, cov2d_means_cell,
        hostPreIn, hostCov2DIn, hs, if_pos hguard]
      ext <;> exact (add_zero _).symm
    | some shs =>
      simp only [backward_preprocess_means_cell, preprocess_means_cell, cov2d_means_cell,
        hostPreIn, hostCov2DIn, hs, if_pos hguard]
  · simp only [backward_preprocess_means_cell, preprocess_means_cell, cov2d_means_cell,
      hostPreIn, hostCov2DIn, if_pos hguard]

/-- A tiny concrete host preprocess input: one non-culled primitive, direct
colors (no SH), no scale/rotation path. -/
def exHost : HostPreIn where
  P := 1
  D := 0
  M := 1
  means3D := fun _ => ⟨0, 0, 1⟩
  radii := fun _ => 1
  dc := fun _ => 0
  shs_opt := none
  clamped := fun _ => false
  opacities := fun _ => 1
  scales_opt := none
  rotations := fun _ => ⟨1, 0, 0, 0⟩
  scale_modifier := 1
  cov3Ds := fun _ => 0
  viewmatrix := fun k => if k = 0 ∨ k = 5 ∨ k = 10 ∨ k = 15 then 1 else 0
  projmatrix := fun k => if k = 0 ∨ k = 5 ∨ k = 10 ∨ k = 15 then 1 else 0
  focal_x := 1
  focal_y := 1
  tan_fovx := 1
  tan_fovy := 1
  campos := ⟨0, 0, 0⟩
  dL_dmean2D := fun _ => ⟨1, 1, 0, 0⟩
  dL_dconic := fun _ => 0
  dL_dinvdepth := fun _ => 0
  dL_dopacity := fun _ => 0
  dL_dcolor := fun _ => 0
  dL_dcov3D := fun _ => 0
  antialiasing := false

/-- C5: for every non-culled primitive, with anti-aliasing disabled the 2D
covariance is regularized by exactly adding 0.3 to each diagonal entry and
the stored opacity gradient is left unscaled; with the flag enabled the
stored opacity gradient is multiplied by sqrt(max(2.5e-5, det ratio)) and
the derivative of that scaling factor enters the 2D-covariance-entry
gradients by the quotient rule, vanishing when the ratio is at or below
2.5e-5. -/
theorem antialiasing_covariance_regularization (inp : Cov2DIn) (idx : ℕ)
    (h1 : idx < inp.P) (h2 : inp.radii idx > 0) :
    (inp.antialiasing = false →
      cov2d_c_xx inp idx = cov2d_c_xx_raw inp idx + 0.3 ∧
        cov2d_c_yy inp idx = cov2d_c_yy_raw inp idx + 0.3 ∧
        cov2d_opacity_cell inp idx = inp.dL_dopacity idx) ∧
      (inp.antialiasing = true →
        cov2d_opacity_cell inp idx =
          inp.dL_dopacity idx *
            Real.sqrt (max 0.000025
              (cov2d_det_cov inp idx / cov2d_det_cov_plus_h_cov inp idx)) ∧
          (cov2d_det_cov inp idx / cov2d_det_cov_plus_h_cov inp idx ≤ 0.000025 →
            cov2d_dL_dc_xx_aa inp idx = 0 ∧ cov2d_dL_dc_yy_aa inp idx = 0 ∧
              cov2d_dL_dc_xy_aa inp idx = 0) ∧
          (0.000025 < cov2d_det_cov inp idx / cov2d_det_cov_plus_h_cov inp idx →
            cov2d_dL_dc_xx_aa inp idx =
              0.3 * (0.3 * cov2d_c_yy inp idx + cov2d_c_yy inp idx * cov2d_c_yy inp idx +
                  cov2d_c_xy inp idx * cov2d_c_xy inp idx) *
                (inp.dL_dopacity idx * inp.opacities idx /
                    (2 * Real.sqrt (max 0.000025
                      (cov2d_det_cov inp idx / cov2d_det_cov_plus_h_cov inp idx))) /
                  sqr (0.3 * 0.3 + 0.3 * (cov2d_c_xx inp idx + cov2d_c_yy inp idx) +
                    cov2d_c_xx inp idx * cov2d_c_yy inp idx -
                    cov2d_c_xy inp idx * cov2d_c_xy inp idx)) ∧
              cov2d_dL_dc_yy_aa inp idx =
                0.3 * (0.3 * cov2d_c_xx inp idx + cov2d_c_xx inp idx * cov2d_c_xx inp idx +
                    cov2d_c_xy inp idx * cov2d_c_xy inp idx) *
                  (inp.dL_dopacity idx * inp.opacities idx /
                      (2 * Real.sqrt (max 0.000025
                        (cov2d_det_cov inp idx / cov2d_det_cov_plus_h_cov inp idx))) /
                    sqr (0.3 * 0.3 + 0.3 * (cov2d_c_xx inp idx + cov2d_c_yy inp idx) +
                      cov2d_c_xx inp idx * cov2d_c_yy inp idx -
                      cov2d_c_xy inp idx * cov2d_c_xy inp idx)) ∧
              cov2d_dL_dc_xy_aa inp idx =
                -2 * 0.3 * cov2d_c_xy inp idx *
                    (0.3 + cov2d_c_xx inp idx + cov2d_c_yy inp idx) *
                  (inp.dL_dopacity idx * inp.opacities idx /
                      (2 * Real.sqrt (max 0.000025
                        (cov2d_det_cov inp idx / cov2d_det_cov_plus_h_cov inp idx))) /
                    sqr (0.3 * 0.3 + 0.3 * (cov2d_c_xx inp idx + cov2d_c_yy inp idx) +
                      cov2d_c_xx inp idx * cov2d_c_yy inp idx -
                      cov2d_c_xy inp idx * cov2d_c_xy inp idx)))) := by
  constructor
  · intro hfalse
    refine ⟨rfl, rfl, ?_⟩
    unfold cov2d_opacity_cell cov2d_dL_dopacity_out
    rw [if_pos ⟨h1, h2⟩, hfalse]
    simp
  · intro htrue
    refine ⟨?_, fun hle => ?_, fun hlt => ?_⟩
    · unfold cov2d_opacity_cell cov2d_dL_dopacity_out cov2d_h_convolution_scaling
      rw [if_pos ⟨h1, h2⟩, htrue]
      simp
    · unfold cov2d_dL_dc_xx_aa cov2d_dL_dc_yy_aa cov2d_dL_dc_xy_aa cov2d_denom_f
        cov2d_d_inside_root
      rw [htrue]
      simp [hle]
    · unfold cov2d_dL_dc_xx_aa cov2d_dL_dc_yy_aa cov2d_dL_dc_xy_aa cov2d_denom_f
        cov2d_d_inside_root cov2d_d_h_convolution_scaling cov2d_h_convolution_scaling
      rw [htrue]
      simp [if_neg (not_le.mpr hlt)]

/-- A concrete computeCov2DCUDA input whose regularized 2D covariance is
exactly singular: identity view, mean (0,0,1), cov3D = (-0.3, 0, 0, 1, 0, 0)
projects to a 2D covariance whose regularized c_xx is 0, so the determinant
denom is exactly 0. -/
def exCovSing : Cov2DIn where
  P := 1
  means := fun _ => ⟨0, 0, 1⟩
  radii := fun _ => 1
  cov3Ds := fun k => if k = 0 then -0.3 else if k = 3 then 1 else 0
  h_x := 1
  h_y := 1
  tan_fovx := 1
  tan_fovy := 1
  view_matrix := fun k => if k = 0 ∨ k = 5 ∨ k = 10 ∨ k = 15 then 1 else 0
  opacities := fun _ => 1
  dL_dconics := fun k => if k = 0 then 1 else 0
  dL_dopacity := fun _ => 0
  dL_dinvdepth := fun _ => 0
  antialiasing := false

/-- Counterexample for C6: a non-culled primitive whose regularized 2D
covariance is singular (denom = 0) for which computeCov2DCUDA writes a
nonzero 3D-covariance gradient entry, because the zeroing branch tests
denom2inv = 1 / (denom * denom + 1e-7), which is 1e7 and not 0 at a
singular covariance. -/
theorem singular_covariance_nonzero_gradient_cex :
    cov2d_denom exCovSing 0 = 0 ∧ (0 : ℤ) < exCovSing.radii 0 ∧
      cov2d_dL_dcov exCovSing 0 0 ≠ 0 := by
  have hdenom : cov2d_denom exCovSing 0 = 0 := by
    norm_num [cov2d_denom, cov2d_c_xx, cov2d_c_yy, cov2d_c_xx_raw, cov2d_c_yy_raw,
      cov2d_c_xy, cov2d_cov2D, cov2d_T, cov2d_W, cov2d_J, cov2d_Vrk, cov2d_t, cov2d_tcam,
      cov2d_txtz, cov2d_tytz, cov2d_limx, cov2d_limy, transformPoint4x3, mulM, trM, mat3,
      Fin.sum_univ_three, Fin.ext_iff, exCovSing]
  refine ⟨hdenom, by norm_num [exCovSing], ?_⟩
  have hxy : cov2d_c_xy exCovSing 0 = 0 := by
    norm_num [cov2d_c_xy, cov2d_cov2D, cov2d_T, cov2d_W, cov2d_J, cov2d_Vrk, cov2d_t,
      cov2d_tcam, cov2d_txtz, cov2d_tytz, cov2d_limx, cov2d_limy, transformPoint4x3, mulM,
      trM, mat3, Fin.sum_univ_three, Fin.ext_iff, exCovSing]
  have hyy : cov2d_c_yy exCovSing 0 = 1.3 := by
    norm_num [cov2d_c_yy, cov2d_c_yy_raw, cov2d_cov2D, cov2d_T, cov2d_W, cov2d_J,
      cov2d_Vrk, cov2d_t, cov2d_tcam, cov2d_txtz, cov2d_tytz, cov2d_limx, cov2d_limy,
      transformPoint4x3, mulM, trM, mat3, Fin.sum_univ_three, Fin.ext_iff, exCovSing]
  have hT00 : cov2d_T exCovSing 0 0 0 = 1 := by
    norm_num [cov2d_T, cov2d_W, cov2d_J, cov2d_t, cov2d_tcam, cov2d_txtz, cov2d_tytz,
      cov2d_limx, cov2d_limy, transformPoint4x3, mulM, mat3, Fin.sum_univ_three,
      Fin.ext_iff, exCovSing]
  have hT10 : cov2d_T exCovSing 0 1 0 = 0 := by
    norm_num [cov2d_T, cov2d_W, cov2d_J, cov2d_t, cov2d_tcam, cov2d_txtz, cov2d_tytz,
      cov2d_limx, cov2d_limy, transformPoint4x3, mulM, mat3, Fin.sum_univ_three,
      Fin.ext_iff, exCovSing]
  have hinv : cov2d_denom2inv exCovSing 0 = 10000000 := by
    rw [cov2d_denom2inv, hdenom]
    norm_num
  have hconic : cov2d_dL_dconic exCovSing 0 = ⟨1, 0, 0⟩ := by
    norm_num [cov2d_dL_dconic, exCovSing]
  have hxx : cov2d_dL_dc_xx exCovSing 0 = -16900000 := by
    rw [cov2d_dL_dc_xx, cov2d_dL_dc_xx_aa]
    rw [if_neg (by norm_num [exCovSing] : ¬exCovSing.antialiasing = true)]
    rw [if_pos (by rw [hinv]; norm_num), hinv, hconic, hdenom, hxy, hyy]
    norm_num [cov2d_c_xx]
  rw [cov2d_dL_dcov, if_pos (by rw [hinv]; norm_num), if_pos rfl, hxx, hT00, hT10]
  norm_num

/-- C6 amended: the inverse-covariance denominator really is guarded with a
small epsilon, so denom2inv is a genuine positive inverse for every input;
in particular denom2inv is never 0, the zeroing branch for a singular
regularized covariance is unreachable, and a singular covariance receives
the epsilon-guarded (generally nonzero) gradient values instead of zeroes. -/
theorem epsilon_guarded_inverse_never_zero (inp : Cov2DIn) (idx : ℕ) :
    0 < cov2d_denom2inv inp idx ∧ cov2d_denom2inv inp idx ≠ 0 ∧
      cov2d_denom2inv inp idx *
        (cov2d_denom inp idx * cov2d_denom inp idx + 0.0000001) = 1 := by
  have hpos : (0 : ℝ) < cov2d_denom inp idx * cov2d_denom inp idx + 0.0000001 := by
    nlinarith [mul_self_nonneg (cov2d_denom inp idx)]
  have h1 : 0 < cov2d_denom2inv inp idx := by
    rw [cov2d_denom2inv]
    positivity
  exact ⟨h1, ne_of_gt h1, by rw [cov2d_denom2inv]; field_simp⟩

/-- A non-culled primitive sitting exactly on the camera plane: camera-space
depth t.z is exactly 0, and computeCov2DCUDA divides by it with no epsilon
(txtz = t.x / t.z, the Jacobian entries and tz = 1 / t.z). -/
def exCovTz : Cov2DIn where
  P := 1
  means := fun _ => ⟨0, 0, 0⟩
  radii := fun _ => 1
  cov3Ds := fun _ => 0
  h_x := 1
  h_y := 1
  tan_fovx := 1
  tan_fovy := 1
  view_matrix := fun k => if k = 0 ∨ k = 5 ∨ k = 10 ∨ k = 15 then 1 else 0
  opacities := fun _ => 1
  dL_dconics := fun _ => 0
  dL_dopacity := fun _ => 0
  dL_dinvdepth := fun _ => 0
  antialiasing := false

/-- The singular-covariance example with the anti-aliasing flag on: the
determinant ratio det_cov / det_cov_plus_h_cov of line 218 then divides by
an exactly zero denominator, with no epsilon. -/
def exCovSingAA : Cov2DIn := { exCovSing with antialiasing := true }

/-- Counterexample for C8: two reachable divisions inside the backward whose
denominators are exactly zero and carry no epsilon: the division by
camera-space depth t.z for a non-culled primitive at depth 0, and the
anti-aliasing determinant-ratio division when the regularized 2D covariance
is singular. -/
theorem unguarded_division_zero_denominator_cex :
    ((0 : ℤ) < exCovTz.radii 0 ∧ (cov2d_tcam exCovTz 0).z = 0) ∧
      (0 : ℤ) < exCovSingAA.radii 0 ∧ exCovSingAA.antialiasing = true ∧
        cov2d_det_cov_plus_h_cov exCovSingAA 0 = 0 := by
  refine ⟨⟨by norm_num [exCovTz], ?_⟩, by norm_num [exCovSingAA, exCovSing], by rfl, ?_⟩
  · norm_num [cov2d_tcam, transformPoint4x3, exCovTz]
  · norm_num [cov2d_det_cov_plus_h_cov, cov2d_c_xx, cov2d_c_yy, cov2d_c_xx_raw,
      cov2d_c_yy_raw, cov2d_c_xy, cov2d_cov2D, cov2d_T, cov2d_W, cov2d_J, cov2d_Vrk,
      cov2d_t, cov2d_tcam, cov2d_txtz, cov2d_tytz, cov2d_limx, cov2d_limy,
      transformPoint4x3, mulM, trM, mat3, Fin.sum_univ_three, Fin.ext_iff, exCovSingAA,
      exCovSing]

/-- C8 amended: the divisions that do carry a guard are genuinely protected
for every input: the squared-determinant inverse adds 1e-7 to a
non-negative quantity and so has a strictly positive denominator, the
perspective divide of PreprocessBackward is performed on m_hom.w + 1e-7 by
definition, the compositing division by 1 - alpha is clamp-guarded since
alpha is capped at 0.99, and the anti-aliasing scaling factor is clamped
below by sqrt(2.5e-5) and hence positive.  Divisions by camera-space depth,
by the stored per-primitive depth, and by the anti-aliasing determinant are
not guarded (see the counterexample). -/
theorem division_guards_cover_guarded_sites (inp : Cov2DIn) (idx : ℕ) (p : PreIn)
    (C : ℕ) (rin : RenderIn C) (b j idxp : ℕ) :
    0 < cov2d_denom inp idx * cov2d_denom inp idx + 0.0000001 ∧
      pre_m_w p idx = 1 / ((pre_m_hom p idx).w + 0.0000001) ∧
      rb_alpha rin b j idxp ≤ 0.99 ∧ 0.01 ≤ 1 - rb_alpha rin b j idxp ∧
      Real.sqrt 0.000025 ≤ cov2d_h_convolution_scaling inp idx ∧
      0 < cov2d_h_convolution_scaling inp idx := by
  refine ⟨by nlinarith [mul_self_nonneg (cov2d_denom inp idx)], rfl, min_le_left _ _,
    by have := min_le_left (0.99 : ℝ) ((rb_con_o rin b j).w * rb_G rin b j idxp)
       rw [rb_alpha]; linarith, ?_, ?_⟩
  · exact Real.sqrt_le_sqrt (le_max_left _ _)
  · exact Real.sqrt_pos.mpr (lt_of_lt_of_le (by norm_num) (le_max_left _ _))

/-- Witness for C5: the concrete non-culled primitive of the host example. -/
theorem antialiasing_covariance_regularization_witness :
    0 < (hostCov2DIn exHost).P ∧ (hostCov2DIn exHost).radii 0 > 0 ∧
      ((hostCov2DIn exHost).antialiasing = false →
        cov2d_opacity_cell (hostCov2DIn exHost) 0 = (hostCov2DIn exHost).dL_dopacity 0) :=
  ⟨by norm_num [hostCov2DIn, exHost], by norm_num [hostCov2DIn, exHost],
    fun hf =>
      ((antialiasing_covariance_regularization (hostCov2DIn exHost) 0
        (by norm_num [hostCov2DIn, exHost]) (by norm_num [hostCov2DIn, exHost])).1 hf).2.2⟩

/-- Witness for C7: the pipeline runs on the concrete non-culled primitive,
with two different prior buffer contents. -/
theorem mean_gradient_overwrite_then_accumulate_witness :
    0 < exHost.P ∧ exHost.radii 0 > 0 ∧
      (backward_preprocess_means_cell exHost 0 ⟨0, 0, 0⟩ =
        cov2d_dL_dmean (hostCov2DIn exHost) 0 + pre_dL_dmean (hostPreIn exHost) 0 +
          (match exHost.shs_opt with
            | some shs => sh_dL_dmean_inc (pre_shIn (hostPreIn exHost) 0 shs)
            | none => 0) ∧
        backward_preprocess_means_cell exHost 0 ⟨0, 0, 0⟩ =
          backward_preprocess_means_cell exHost 0 ⟨1, 2, 3⟩) :=
  ⟨by norm_num [exHost], by norm_num [exHost],
    mean_gradient_overwrite_then_accumulate exHost 0 ⟨0, 0, 0⟩ ⟨1, 2, 3⟩
      (by norm_num [exHost]) (by norm_num [exHost])⟩

/-- C1: for every tile, bucket partition and forward-pass state consistent
with the front-to-back forward compositing pass (the sampled checkpoints,
the final per-pixel outputs and the contributor counts all agree with the
forward recursion, the counts do not exceed the tile's splat count or its
recorded maximum), the bucketed, checkpoint-replay warp pipeline produces,
for every valid lane, exactly the mean2D, conic, opacity, color and
inverse-depth gradient block of the brute-force sequential
reverse-compositing reference that processes each pixel's contributing
primitives in order. -/
theorem warp_pipeline_matches_sequential_reference (C : ℕ) (inp : RenderIn C) (b j : ℕ)
    (hj : j ≤ 31) (hvs : rb_valid_splat inp b j)
    (hT : ∀ p, p < rbBS inp → rb_valid_pixel inp b p →
      inp.sampled_T (b * rbBS inp + p) = (fwd inp b p (rb_bit inp b * 32)).T)
    (har : ∀ p, p < rbBS inp → rb_valid_pixel inp b p → ∀ ch : Fin C,
      inp.sampled_ar (b * rbBS inp * C + (ch : ℕ) * rbBS inp + p) =
        (fwd inp b p (rb_bit inp b * 32)).ar ch)
    (hard : ∀ p, p < rbBS inp → rb_valid_pixel inp b p →
      inp.sampled_ard (b * rbBS inp + p) = (fwd inp b p (rb_bit inp b * 32)).ard)
    (hpc : ∀ p, p < rbBS inp → rb_valid_pixel inp b p → ∀ ch : Fin C,
      inp.pixel_colors ((ch : ℕ) * inp.H * inp.W + rb_pix_id inp b p) =
        (fwd inp b p (inp.n_contrib (rb_pix_id inp b p))).ar ch)
    (hpd : ∀ p, p < rbBS inp → rb_valid_pixel inp b p →
      inp.pixel_invDepths (rb_pix_id inp b p) =
        (fwd inp b p (inp.n_contrib (rb_pix_id inp b p))).ard)
    (hfT : ∀ p, p < rbBS inp → rb_valid_pixel inp b p →
      inp.final_Ts (rb_pix_id inp b p) =
        (fwd inp b p (inp.n_contrib (rb_pix_id inp b p))).T)
    (hn : ∀ p, p < rbBS inp → rb_valid_pixel inp b p →
      inp.n_contrib (rb_pix_id inp b p) ≤ rb_num_splats inp b)
    (hmax : ∀ p, p < rbBS inp → rb_valid_pixel inp b p →
      inp.n_contrib (rb_pix_id inp b p) ≤ inp.max_contrib (rb_tile inp b)) :
    (if rb_early_exit inp b then 0 else rb_finalAcc inp b j) =
      ∑ p in Finset.range (rbBS inp), refAcc inp b p (rb_splat_idx_in_tile inp b j) := by
  by_cases he : rb_early_exit inp b
  · rw [if_pos he]
    refine (Finset.sum_eq_zero fun p hp => ?_).symm
    rw [refAcc, if_neg]
    rintro ⟨hvp, hlt, -⟩
    have hm := hmax p (Finset.mem_range.mp hp) hvp
    unfold rb_early_exit at he
    unfold rb_splat_idx_in_tile at hlt
    omega
  · rw [if_neg he, rb_finalAcc_eq_sum inp b j hj]
    refine Finset.sum_congr rfl fun p hp => ?_
    by_cases hvp : rb_valid_pixel inp b p
    · exact rb_pixContrib_eq_refAcc inp b p (Finset.mem_range.mp hp) hvp
        (hT p (Finset.mem_range.mp hp) hvp) (har p (Finset.mem_range.mp hp) hvp)
        (hard p (Finset.mem_range.mp hp) hvp) (hpc p (Finset.mem_range.mp hp) hvp)
        (hpd p (Finset.mem_range.mp hp) hvp) (hfT p (Finset.mem_range.mp hp) hvp)
        (hn p (Finset.mem_range.mp hp) hvp) j hvs
    · rw [rb_pixContrib, if_neg (fun hc => hvp hc.2.2), refAcc, if_neg (fun hc => hvp hc.1)]

/-- A concrete single-tile, single-pixel, single-splat render input whose
recorded contributor counts are all zero, so the forward pass is everywhere
in its initial state and every checkpoint and final-output buffer is
trivially consistent with it. -/
def exInputD : RenderIn 1 :=
  { W := 1, H := 1, BX := 1, BY := 1, B := 1
    ranges := fun _ => (0, 1)
    point_list := fun _ => 0
    per_tile_bucket_offset := fun _ => 1
    bucket_to_tile := fun _ => 0
    sampled_T := fun _ => 1
    sampled_ar := fun _ => 0
    sampled_ard := fun _ => 0
    bg_color := fun _ => 0
    points_xy_image := fun _ => ⟨0, 0⟩
    conic_opacity := fun _ => ⟨1, 0, 1, 1⟩
    colors := fun _ => 1
    depths := fun _ => 1
    final_Ts := fun _ => 1
    n_contrib := fun _ => 0
    max_contrib := fun _ => 1
    pixel_colors := fun _ => 0
    pixel_invDepths := fun _ => 0
    dL_dpixels := fun _ => 1
    dL_invdepths := fun _ => 1 }

/-- Witness for C1: the warp pipeline agrees with the sequential reference
on the concrete consistent input. -/
theorem warp_pipeline_matches_sequential_reference_witness :
    (if rb_early_exit exInputD 0 then 0 else rb_finalAcc exInputD 0 0) =
      ∑ p in Finset.range (rbBS exInputD),
        refAcc exInputD 0 p (rb_splat_idx_in_tile exInputD 0 0) :=
  warp_pipeline_matches_sequential_reference 1 exInputD 0 0 (by norm_num) (by decide)
    (fun p _ _ => rfl) (fun p _ _ ch => rfl) (fun p _ _ => rfl) (fun p _ _ ch => rfl)
    (fun p _ _ => rfl) (fun p _ _ => rfl) (fun p _ _ => Nat.zero_le _)
    (fun p _ _ => Nat.zero_le _)
